import Mathlib

/-!
# Verification of the MC833 movie-server core

Shallow embedding of the request-processing pipeline of the repository:
the bounded SPMC work queue (`src/worker/queue.*`), the worker pool
admission path (`src/worker/worker.c`), the streaming YAML operation
parser and its integer parsing (`src/database/database.c`), the reusable
movie builder (`src/movie/builder.c`), and the error-message ownership
discipline (`src/database/database.c`).

Machine integers are modelled as `Nat`/`Int` with explicit reductions
modulo `2 ^ 64` where the C code relies on unsigned wrap-around.
Fallible C functions (out-of-memory, overflow) are modelled with an
explicit allocation oracle `alloc : Nat -> Bool` saying whether the n-th
allocator call succeeds.  Concurrency is modelled sequentially: atomics
read the current state and compare-and-swap succeeds, which matches the
single-producer (push) and single-consumer-at-a-time (pop) view of each
call; pthread mutex/cond operations are modelled as succeeding.
-/

set_option maxRecDepth 8000

namespace MovieServer

/-! ## Work queue (`src/worker/queue.h`, queue implementation file) -/

/-- `WORK_QUEUE_CAPACITY` from `src/worker/queue.h`. -/
def WORK_QUEUE_CAPACITY : Nat := 128

/-- The unsigned 64-bit counter domain: counters live in `[0, U64)`. -/
def U64 : Nat := 2 ^ 64

/-- `INT_FAST64_MAX`, the largest signed 64-bit value. -/
def INT_FAST64_MAX : Int := 2 ^ 63 - 1

/-- `idx`: convert a 64-bit ticket to a ring-buffer index
(`ticket % WORK_QUEUE_CAPACITY`). -/
def idx (ticket : Nat) : Nat := ticket % WORK_QUEUE_CAPACITY

/-- `workq_size`: the unsigned difference `tail - head` (with 64-bit
wrap-around) reinterpreted as a signed two's-complement 64-bit value,
exactly as the C helper does (`diff <= INT_FAST64_MAX` keeps the value,
otherwise the result is `-(~diff + 1) = diff - 2^64`). -/
def workq_size (head tail : Nat) : Int :=
  let diff : Nat := (tail + U64 - head % U64) % U64
  if (diff : Int) ≤ INT_FAST64_MAX then (diff : Int) else (diff : Int) - (U64 : Int)

/-- State of `struct work_queue`: the two 64-bit tickets, the ring
storage (modelled as unbounded memory indexed by ring position; only
indices below `WORK_QUEUE_CAPACITY` are ever used), and a ghost counter
of `pthread_cond_signal` calls so that the wake-up side effect of a push
is visible in the model. -/
structure WorkQueue where
  head : Nat
  tail : Nat
  buf : Nat → Int
  signals : Nat

/-- `workq_signal_item_added`: lock the condition mutex, signal one
waiter, unlock.  The pthread calls are modelled as succeeding; the ghost
`signals` counter records the single signal. -/
def workq_signal_item_added (q : WorkQueue) : Bool × WorkQueue :=
  (true, { q with signals := q.signals + 1 })

/-- `workq_push`: the producer-side push.  Loads of `head`/`tail` see
the current state (single producer); on a seemingly full queue the code
reloads `head` and re-checks (the reload yields the same value in the
sequential model); otherwise the item is written into
`buf[idx tail]`, the tail compare-and-swap (which cannot fail for the
single producer) publishes `tail + 1`, and one waiter is signalled. -/
def workq_push (q : WorkQueue) (item : Int) : Bool × WorkQueue :=
  let head := q.head
  let tail := q.tail
  if workq_size head tail ≥ (WORK_QUEUE_CAPACITY : Int) then
    -- reload the latest head before dropping items; same value here
    if workq_size head tail ≥ (WORK_QUEUE_CAPACITY : Int) then
      (false, q)
    else
      (false, q)
  else
    let q' := { q with
      buf := fun j => if j = idx tail then item else q.buf j,
      tail := (tail + 1) % U64 }
    workq_signal_item_added q'

/-- `workq_pop`: the consumer-side pop.  Reads `head` and `tail`; if the
queue seems empty the latest `tail` is reloaded (same value in the
sequential model) and emptiness is re-checked; otherwise the slot at
`idx head` is snapshotted and the head compare-and-swap (which succeeds
at once in the sequential model, so the retry loop is not entered)
advances `head` by one.  `none` models returning `false` with `*item`
untouched. -/
def workq_pop (q : WorkQueue) : Option Int × WorkQueue :=
  let head := q.head
  let tail := q.tail
  if workq_size head tail ≤ 0 then
    -- reload the latest tail and check again; same value here
    if workq_size head tail ≤ 0 then
      (none, q)
    else
      (none, q)
  else
    let target := q.buf (idx head)
    (some target, { q with head := (head + 1) % U64 })

/-! ## Worker pool admission (`src/worker/worker.c`) -/

/-- `WORKERS_CAPACITY` from `src/worker/worker.h`. -/
def WORKERS_CAPACITY : Nat := 128

/-- State of `struct worker_list`: per-worker liveness (the result of
the `pthread_kill(id, 0)` probe) plus the shared queue. -/
structure Workers where
  alive : List Bool
  queue : WorkQueue

/-- Body of the loop in `restart_dead_workers`, threading the worker
index `i` for the restart oracle.  Returns the number of workers that
were found dead and could not be restarted, together with the updated
liveness list (a successful `restart_worker` makes the worker live). -/
def restart_dead_workers_go (restartOk : Nat → Bool) : Nat → List Bool → Nat × List Bool
  | _, [] => (0, [])
  | i, w :: ws =>
    let (dead, ws') := restart_dead_workers_go restartOk (i + 1) ws
    if w then
      (dead, w :: ws')
    else if restartOk i then
      (dead, true :: ws')
    else
      (dead + 1, false :: ws')

/-- `restart_dead_workers`: probe every worker, restart the dead ones,
and report whether fewer than `WORKERS_CAPACITY` workers are
dead-and-unrestartable. -/
def restart_dead_workers (restartOk : Nat → Bool) (ws : List Bool) : Bool × List Bool :=
  let (dead, ws') := restart_dead_workers_go restartOk 0 ws
  (decide (dead < WORKERS_CAPACITY), ws')

/-- `workers_add_work`: the admission loop.  The C function loops
unconditionally (`while (true)`), so the model carries explicit fuel:
`none` means the loop has not returned within `fuel` iterations.  Each
iteration restarts dead workers, gives up (returns `false`) only when
that reports no workers at all, then tries `workq_push` and returns
`true` on success, otherwise pauses (`_mm_pause`) and retries. -/
def workers_add_work (restartOk : Nat → Bool) :
    Nat → Workers → Int → Option (Bool × Workers)
  | 0, _, _ => none
  | fuel + 1, st, socket_fd =>
    let (has_workers, alive') := restart_dead_workers restartOk st.alive
    if !has_workers then
      some (false, { st with alive := alive' })
    else
      let (not_full, q') := workq_push st.queue socket_fd
      if not_full then
        some (true, { alive := alive', queue := q' })
      else
        workers_add_work restartOk fuel { alive := alive', queue := q' } socket_fd

/-! ## Integer parsing (`parse_i64` in `src/database/database.c`)

A C string is modelled as the list of its characters up to (and
excluding) the terminating NUL, so the list never contains `'\x00'`. -/

/-- `INT64_MAX` (= `LLONG_MAX` on the target platform). -/
def INT64_MAX : Int := 2 ^ 63 - 1

/-- `INT64_MIN` (= `LLONG_MIN` on the target platform). -/
def INT64_MIN : Int := -(2 ^ 63)

/-- `isspace` in the C locale: space, tab, newline, vertical tab, form
feed, carriage return. -/
def isSpaceC (c : Char) : Bool :=
  c = ' ' || c = '\t' || c = '\n' || c = '\x0b' || c = '\x0c' || c = '\r'

/-- `isdigit`: the characters `'0'` through `'9'`. -/
def isDigitC (c : Char) : Bool :=
  48 ≤ c.toNat && c.toNat ≤ 57

/-- Numeric value of a digit string, most significant digit first. -/
def digitsVal (ds : List Char) : Nat :=
  ds.foldl (fun acc c => acc * 10 + (c.toNat - 48)) 0

/-- Sign handling of `strtoll`: an optional single `'-'` or `'+'` after
the whitespace.  Returns the sign and the rest of the string. -/
def strtollSign : List Char → Int × List Char
  | [] => (1, [])
  | c :: t => if c = '-' then (-1, t) else if c = '+' then (1, t) else (1, c :: t)

/-- Result of `strtoll(str, &end, 10)`: the returned value, the string
suffix starting at `*end`, whether no conversion was performed (in which
case `end == str`), and whether `errno` was set to `ERANGE`. -/
structure Strtoll where
  value : Int
  restAfter : List Char
  noConv : Bool
  erange : Bool
  deriving Repr, DecidableEq

/-- `strtoll(str, &end, 10)` in the C locale: skip whitespace, read an
optional sign and a non-empty run of decimal digits; with no digits no
conversion is performed and `end == str`; on overflow the result is
clamped to `LLONG_MAX`/`LLONG_MIN` with `ERANGE`. -/
def strtoll10 (s : List Char) : Strtoll :=
  let sr := strtollSign (s.dropWhile isSpaceC)
  let ds := sr.2.takeWhile isDigitC
  let r3 := sr.2.dropWhile isDigitC
  if ds = [] then
    { value := 0, restAfter := s, noConv := true, erange := false }
  else
    let v : Int := sr.1 * (digitsVal ds : Int)
    if v > INT64_MAX then
      { value := INT64_MAX, restAfter := r3, noConv := false, erange := true }
    else if v < INT64_MIN then
      { value := INT64_MIN, restAfter := r3, noConv := false, erange := true }
    else
      { value := v, restAfter := r3, noConv := false, erange := false }

/-- `parse_i64`: rejects the empty string, then calls
`strtoll(str, &end, 10)` and fails on `ERANGE`, on values outside the
`int64_t` range (vacuous since `long long` is 64-bit), on `end == str`,
and on `*end != '\0'`; otherwise the parsed value is written out. -/
def parse_i64 (s : List Char) : Option Int :=
  if s = [] then none
  else
    let r := strtoll10 s
    if r.erange || decide (r.value < INT64_MIN) || decide (r.value > INT64_MAX)
        || r.noConv || !(r.restAfter.isEmpty) then
      none
    else
      some r.value

/-- The amended specification of `parse_i64`, written from its observable
behaviour: the whole string must be optional whitespace, then an optional
single sign, then one or more decimal digits, and the signed value must
lie within the `int64_t` range. -/
def parse_i64_amended (s : List Char) (v : Int) : Prop :=
  ∃ ws sgn ds, s = ws ++ sgn ++ ds ∧
    (∀ c ∈ ws, isSpaceC c = true) ∧
    (sgn = [] ∨ sgn = ['+'] ∨ sgn = ['-']) ∧
    ds ≠ [] ∧ (∀ c ∈ ds, isDigitC c = true) ∧
    v = (if sgn = ['-'] then -(digitsVal ds : Int) else (digitsVal ds : Int)) ∧
    INT64_MIN ≤ v ∧ v ≤ INT64_MAX


/-! ## Movie builder (`src/movie/builder.c`)

The string arena `str_data` and the record list `movie_list` are
modelled as unbounded memories (`Nat -> Char`, `Nat -> MovieRef`)
together with the capacity and in-use watermarks the C code keeps.
Every function that calls the allocator consumes one tick of the
allocation oracle `alloc : Nat -> Bool` (the ghost counter `allocCtr`
indexes the next tick). -/

/-- `SIZE_MAX`, the largest `size_t` value. -/
def SIZE_MAX : Nat := 2 ^ 64 - 1

/-- `INT_MAX`, the largest `int` value. -/
def INT_MAX : Int := 2 ^ 31 - 1

/-- `INT_MIN`, the smallest `int` value. -/
def INT_MIN : Int := -(2 ^ 31)

/-- `BUFFER_PAGE_SIZE`: the arena grows in 4 KiB pages. -/
def BUFFER_PAGE_SIZE : Nat := 4096

/-- `MOVIE_LIST_CAPACITY_STEP`: the record list grows by 128 entries. -/
def MOVIE_LIST_CAPACITY_STEP : Nat := 128

/-- The NUL terminator byte. -/
def nulChar : Char := Char.ofNat 0

/-- `ceil_div`: `1 + (a - 1) / b` for positive arguments. -/
def ceil_div (a b : Nat) : Nat := 1 + (a - 1) / b

/-- `struct movie_ref`: offsets into the arena plus scalar fields. -/
structure MovieRef where
  movie_id : Int
  title_slice : Nat
  director_slice : Nat
  release_year : Int
  genres_slice : Nat
  genres_count : Nat
  deriving Repr, DecidableEq

/-- `struct movie_builder`. -/
structure MovieBuilder where
  current : MovieRef
  has_id : Bool
  has_title : Bool
  has_director : Bool
  has_release_year : Bool
  has_genres : Bool
  str_data : Nat → Char
  str_capacity : Nat
  str_in_use : Nat
  movie_list : Nat → MovieRef
  list_capacity : Nat
  list_size : Nat
  allocCtr : Nat

/-- `memcpy` of `bytes` into memory at offset `off`. -/
def writeBytes (mem : Nat → Char) (off : Nat) (bytes : List Char) : Nat → Char :=
  fun i => if off ≤ i ∧ i - off < bytes.length then bytes.getD (i - off) (mem i) else mem i

/-- Read the C string starting at offset `off`: the characters up to the
first NUL, never reading past `bound` (the arena watermark; every stored
string is NUL-terminated inside the watermark). -/
def cStringAt (mem : Nat → Char) (bound : Nat) (off : Nat) : List Char :=
  ((List.range (bound - off)).map (fun k => mem (off + k))).takeWhile (fun c => c ≠ nulChar)

/-- `movie_builder_realloc_str_data`: overflow-checked growth of the
arena to the next page multiple (`ckd_add` failure and allocation
failure both return `false` without touching the builder); on success
the new buffer holds the copied in-use prefix. -/
def movie_builder_realloc_str_data (alloc : Nat → Bool) (b : MovieBuilder)
    (additional_size : Nat) : Bool × MovieBuilder :=
  if b.str_in_use + additional_size > SIZE_MAX then
    (false, b)
  else
    let final_size := b.str_in_use + additional_size
    let final_capacity := (ceil_div final_size BUFFER_PAGE_SIZE * BUFFER_PAGE_SIZE) % (SIZE_MAX + 1)
    if alloc b.allocCtr then
      (true,
        { b with
          str_data := fun i => if i < b.str_in_use then b.str_data i else nulChar,
          str_capacity := final_capacity,
          allocCtr := b.allocCtr + 1 })
    else
      (false, { b with allocCtr := b.allocCtr + 1 })

/-- `movie_builder_create_slice`: reserve `size` bytes in the arena
(growing it if needed) and return the slice offset. -/
def movie_builder_create_slice (alloc : Nat → Bool) (b : MovieBuilder) (size : Nat) :
    Option Nat × MovieBuilder :=
  if size > b.str_capacity - b.str_in_use then
    let r := movie_builder_realloc_str_data alloc b size
    if r.1 then
      (some r.2.str_in_use, { r.2 with str_in_use := r.2.str_in_use + size })
    else
      (none, r.2)
  else
    (some b.str_in_use, { b with str_in_use := b.str_in_use + size })

/-- `movie_builder_add_string`: reserve `len + 1` bytes and copy the
string plus its NUL terminator into the slice. -/
def movie_builder_add_string (alloc : Nat → Bool) (b : MovieBuilder) (str : List Char) :
    Option Nat × MovieBuilder :=
  match movie_builder_create_slice alloc b (str.length + 1) with
  | (none, b') => (none, b')
  | (some idx0, b') =>
    (some idx0, { b' with str_data := writeBytes b'.str_data idx0 (str ++ [nulChar]) })

/-- `movie_builder_reset`. -/
def movie_builder_reset (b : MovieBuilder) : MovieBuilder :=
  { b with
    str_in_use := 0, list_size := 0,
    has_id := false, has_title := false, has_director := false,
    has_release_year := false, has_genres := false }

/-- `movie_builder_set_id`. -/
def movie_builder_set_id (b : MovieBuilder) (movie_id : Int) : MovieBuilder :=
  { b with current := { b.current with movie_id := movie_id }, has_id := true }

/-- `movie_builder_set_title`. -/
def movie_builder_set_title (alloc : Nat → Bool) (b : MovieBuilder) (title : List Char) :
    Bool × MovieBuilder :=
  match movie_builder_add_string alloc b title with
  | (none, b') => (false, b')
  | (some sl, b') =>
    (true, { b' with current := { b'.current with title_slice := sl }, has_title := true })

/-- `movie_builder_set_director`. -/
def movie_builder_set_director (alloc : Nat → Bool) (b : MovieBuilder) (director : List Char) :
    Bool × MovieBuilder :=
  match movie_builder_add_string alloc b director with
  | (none, b') => (false, b')
  | (some sl, b') =>
    (true, { b' with current := { b'.current with director_slice := sl }, has_director := true })

/-- `movie_builder_set_release_year`. -/
def movie_builder_set_release_year (b : MovieBuilder) (release_year : Int) : MovieBuilder :=
  { b with
    current := { b.current with release_year := release_year },
    has_release_year := true }

/-- `movie_builder_start_genres`. -/
def movie_builder_start_genres (b : MovieBuilder) : MovieBuilder :=
  { b with
    current := { b.current with genres_slice := b.str_in_use, genres_count := 0 },
    has_genres := true }

/-- `movie_builder_add_genre`. -/
def movie_builder_add_genre (alloc : Nat → Bool) (b : MovieBuilder) (genre : List Char) :
    Bool × MovieBuilder :=
  match movie_builder_add_string alloc b genre with
  | (none, b') => (false, b')
  | (some _, b') =>
    (true, { b' with
      current := { b'.current with genres_count := b'.current.genres_count + 1 } })

/-- `movie_builder_take_current_summary`: the id and the title string of
the current record (used with the summary title holding a genre in the
`parse_movie_key` sub-parser). -/
def movie_builder_take_current_summary (b : MovieBuilder) : Int × List Char :=
  (b.current.movie_id, cStringAt b.str_data b.str_in_use b.current.title_slice)

/-- Walk `count` consecutive NUL-terminated strings starting at `off`. -/
def takeGenresGo (mem : Nat → Char) (bound : Nat) : Nat → Nat → List (List Char)
  | 0, _ => []
  | n + 1, off =>
    let g := cStringAt mem bound off
    g :: takeGenresGo mem bound n (off + g.length + 1)

/-- `movie_builder_take_genres`: `ckd_mul` overflow check on
`count * sizeof(char *)`, one `malloc`, then the genre pointers are
collected by walking the NUL-terminated strings. -/
def movie_builder_take_genres (alloc : Nat → Bool) (b : MovieBuilder) (ref : MovieRef) :
    Option (List (List Char)) × MovieBuilder :=
  if ref.genres_count * 8 > SIZE_MAX then
    (none, b)
  else if alloc b.allocCtr then
    (some (takeGenresGo b.str_data b.str_in_use ref.genres_count ref.genres_slice),
      { b with allocCtr := b.allocCtr + 1 })
  else
    (none, { b with allocCtr := b.allocCtr + 1 })

/-- `struct movie` materialized from the builder. -/
structure MovieVal where
  id : Int
  title : List Char
  director : List Char
  release_year : Int
  genres : List (List Char)
  deriving Repr, DecidableEq

/-- `movie_builder_take_current_movie`. -/
def movie_builder_take_current_movie (alloc : Nat → Bool) (b : MovieBuilder) :
    Option MovieVal × MovieBuilder :=
  match movie_builder_take_genres alloc b b.current with
  | (none, b') => (none, b')
  | (some gs, b') =>
    (some { id := b.current.movie_id,
            title := cStringAt b.str_data b.str_in_use b.current.title_slice,
            director := cStringAt b.str_data b.str_in_use b.current.director_slice,
            release_year := b.current.release_year,
            genres := gs }, b')

/-- `movie_builder_realloc_movie_list`: overflow-checked growth of the
record list by `MOVIE_LIST_CAPACITY_STEP` entries. -/
def movie_builder_realloc_movie_list (alloc : Nat → Bool) (b : MovieBuilder) :
    Bool × MovieBuilder :=
  if b.list_capacity + MOVIE_LIST_CAPACITY_STEP > SIZE_MAX then
    (false, b)
  else if alloc b.allocCtr then
    (true, { b with
      list_capacity := b.list_capacity + MOVIE_LIST_CAPACITY_STEP,
      allocCtr := b.allocCtr + 1 })
  else
    (false, { b with allocCtr := b.allocCtr + 1 })

/-- `movie_build_add_to_list`: append a record descriptor, growing the
list when it is full. -/
def movie_build_add_to_list (alloc : Nat → Bool) (b : MovieBuilder) (ref : MovieRef) :
    Bool × MovieBuilder :=
  if b.list_capacity ≤ b.list_size then
    let r := movie_builder_realloc_movie_list alloc b
    if r.1 then
      (true, { r.2 with
        movie_list := fun i => if i = r.2.list_size then ref else r.2.movie_list i,
        list_size := r.2.list_size + 1 })
    else
      (false, r.2)
  else
    (true, { b with
      movie_list := fun i => if i = b.list_size then ref else b.movie_list i,
      list_size := b.list_size + 1 })

/-- `movie_builder_add_current_movie_to_list`: push the current record
and clear all five has-flags on success. -/
def movie_builder_add_current_movie_to_list (alloc : Nat → Bool) (b : MovieBuilder) :
    Bool × MovieBuilder :=
  let r := movie_build_add_to_list alloc b b.current
  if r.1 then
    (true,
      { r.2 with
        has_id := false, has_title := false, has_director := false,
        has_release_year := false, has_genres := false })
  else
    (false, r.2)

/-- `movie_builder_add_current_summary_to_list`: push a summary
descriptor (sentinel director/genres fields) and clear the id and title
flags on success. -/
def movie_builder_add_current_summary_to_list (alloc : Nat → Bool) (b : MovieBuilder) :
    Bool × MovieBuilder :=
  let summary : MovieRef :=
    { movie_id := b.current.movie_id, title_slice := b.current.title_slice,
      director_slice := SIZE_MAX, release_year := INT_MAX,
      genres_slice := SIZE_MAX, genres_count := SIZE_MAX }
  let r := movie_build_add_to_list alloc b summary
  if r.1 then
    (true, { r.2 with has_id := false, has_title := false })
  else
    (false, r.2)

/-- The visible state of the builder named by the claim: the arena
watermark, the arena contents up to the watermark, the five has-flags,
the current record fields, and the record list contents. -/
def builder_visible (b : MovieBuilder) :
    Nat × List Char × Bool × Bool × Bool × Bool × Bool × MovieRef × Nat × List MovieRef :=
  (b.str_in_use,
   (List.range b.str_in_use).map b.str_data,
   b.has_id, b.has_title, b.has_director, b.has_release_year, b.has_genres,
   b.current,
   b.list_size,
   (List.range b.list_size).map b.movie_list)


/-! ## Streaming YAML operation parser (`src/database/database.c`)

The libyaml event stream is modelled as a list of read results: either a
parsed event or an underlying failure (`yaml_parser_parse` returning 0,
e.g. an I/O error in the socket read callback; the library problem text
is carried on the failure).  Event position marks and the reusable
error-message buffer are elided: `parse_invalid`/`parse_fail` messages
are the bare message strings.  Every loop carries fuel; `none` means the
loop has not returned within the given number of iterations (or the
modelled event list ran out). -/

/-- A libyaml event (`yaml_event_type_t`). -/
inductive YEvent
  | scalar (value : List Char)
  | mappingStart
  | mappingEnd
  | sequenceStart
  | sequenceEnd
  | documentStart
  | documentEnd
  | streamStart
  | streamEnd
  | aliasEv
  | noEvent
  deriving Repr, DecidableEq

/-- One result of `yaml_parser_parse`. -/
inductive YRead
  | ev (e : YEvent)
  | ioErr (problem : String)
  deriving Repr, DecidableEq

/-- `enum operation_ty`. -/
inductive OpTy
  | ADD_MOVIE
  | ADD_GENRE
  | REMOVE_MOVIE
  | LIST_SUMMARIES
  | LIST_MOVIES
  | GET_MOVIE
  | SEARCH_BY_GENRE
  | PARSE_ERROR
  | PARSE_DONE
  deriving Repr, DecidableEq

/-- `struct movie_key`. -/
structure MovieKey where
  movie_id : Int
  genre : List Char
  deriving Repr, DecidableEq

/-- `struct operation`: the tag together with the union member that the
code writes for that tag. -/
inductive Operation
  | bare (ty : OpTy)
  | withMovie (ty : OpTy) (movie : MovieVal)
  | withKey (ty : OpTy) (key : MovieKey)
  | parseError (msg : String)
  | parseDone
  deriving Repr, DecidableEq

/-- `op.ty == PARSE_ERROR`. -/
def Operation.isParseError : Operation → Bool
  | .parseError _ => true
  | _ => false

/-- The parser state visible to the claims: the `done` latch, the
`in_mapping` flag, and the owned movie builder. -/
structure ParserState where
  done : Bool
  in_mapping : Bool
  builder : MovieBuilder

/-- `parser_finished`. -/
def parser_finished (p : ParserState) : Bool := p.done

/-- `parse_done`: set the `done` latch and emit `PARSE_DONE`. -/
def parse_done (p : ParserState) : Operation × ParserState :=
  (Operation.parseDone, { p with done := true })

/-- `parse_invalid`: an error operation with our own message (position
marks elided). -/
def parse_invalid (msg : String) : Operation := Operation.parseError msg

/-- `parse_fail`: an error operation carrying the library problem text.
It does not touch the `done` latch. -/
def parse_fail (problem : String) : Operation := Operation.parseError problem

/-- `parse_ty`: operation-key recognition (symbolic names and the
single-character decimal codes). -/
def parse_ty (key : List Char) : OpTy :=
  if key = "add_movie".toList ∨ key = "1".toList then .ADD_MOVIE
  else if key = "add_genre".toList ∨ key = "2".toList then .ADD_GENRE
  else if key = "remove_movie".toList ∨ key = "3".toList then .REMOVE_MOVIE
  else if key = "list_summaries".toList ∨ key = "4".toList then .LIST_SUMMARIES
  else if key = "list_movies".toList ∨ key = "5".toList then .LIST_MOVIES
  else if key = "get_movie".toList ∨ key = "6".toList then .GET_MOVIE
  else if key = "search_by_genre".toList ∨ key = "7".toList then .SEARCH_BY_GENRE
  else .PARSE_ERROR

/-- `enum current_key`. -/
inductive CurrentKey
  | NONE
  | ID_KEY
  | TITLE_KEY
  | GENRE_KEY
  | DIRECTOR_KEY
  | YEAR_KEY
  | OTHER_KEY
  deriving Repr, DecidableEq

/-- `parse_key`: field-key recognition inside an operation mapping. -/
def parse_key (key : List Char) : CurrentKey :=
  if key = "id".toList then .ID_KEY
  else if key = "title".toList then .TITLE_KEY
  else if key = "genre".toList ∨ key = "genres".toList then .GENRE_KEY
  else if key = "director".toList then .DIRECTOR_KEY
  else if key = "year".toList ∨ key = "release_year".toList then .YEAR_KEY
  else .OTHER_KEY

/-- The loop of `parse_consume`: drop events until the mapping/sequence
balance returns to zero, then return `result`.  No builder access. -/
def parse_consume_loop (result : Operation) (fuel : Nat) (p : ParserState) (evs : List YRead)
    (mstk sstk : Nat) : Option (Operation × ParserState × List YRead) :=
  if p.done then some (result, p, evs)
  else match fuel, evs with
    | 0, _ => none
    | _ + 1, [] => none
    | fuel + 1, re :: rest =>
      match re with
      | .ioErr prob => some (parse_fail prob, p, rest)
      | .ev .mappingStart => parse_consume_loop result fuel p rest (mstk + 1) sstk
      | .ev .mappingEnd =>
        if mstk = 0 then some (parse_invalid "unexpected end of mapping", p, rest)
        else if mstk - 1 = 0 ∧ sstk = 0 then some (result, p, rest)
        else parse_consume_loop result fuel p rest (mstk - 1) sstk
      | .ev .sequenceStart => parse_consume_loop result fuel p rest mstk (sstk + 1)
      | .ev .sequenceEnd =>
        if sstk = 0 then some (parse_invalid "unexpected end of sequence", p, rest)
        else if mstk = 0 ∧ sstk - 1 = 0 then some (result, p, rest)
        else parse_consume_loop result fuel p rest mstk (sstk - 1)
      | .ev .streamEnd =>
        some ((parse_done p).1, (parse_done p).2, rest)
      | .ev .streamStart => some (parse_invalid "unexpected end of document", p, rest)
      | .ev .documentStart => some (parse_invalid "unexpected end of document", p, rest)
      | .ev .documentEnd => some (parse_invalid "unexpected end of document", p, rest)
      | .ev .noEvent => parse_consume_loop result fuel p rest mstk sstk
      | .ev .aliasEv => parse_consume_loop result fuel p rest mstk sstk
      | .ev (.scalar _) => parse_consume_loop result fuel p rest mstk sstk

/-- `parse_consume(parser, is_sequence, result)`. -/
def parse_consume (result : Operation) (is_sequence : Bool) (fuel : Nat) (p : ParserState)
    (evs : List YRead) : Option (Operation × ParserState × List YRead) :=
  parse_consume_loop result fuel p evs (if is_sequence then 0 else 1)
    (if is_sequence then 1 else 0)

/-- The terminal return of `parse_genre_list`: the recorded error if
any, otherwise a generic end-of-document error. -/
def genre_list_exit (le : Operation) : Operation :=
  if le.isParseError then le else Operation.parseError "document ended unexpectedly"

/-- The loop of `parse_genre_list`. -/
def parse_genre_list_loop (alloc : Nat → Bool) (ignore : Bool) (fuel : Nat) (p : ParserState)
    (evs : List YRead) (in_list : Bool) (le : Operation) :
    Option (Operation × ParserState × List YRead) :=
  if p.done then some (genre_list_exit le, p, evs)
  else match fuel, evs with
    | 0, _ => none
    | _ + 1, [] => none
    | fuel + 1, re :: rest =>
      match re with
      | .ioErr prob => some (parse_fail prob, p, rest)
      | .ev (.scalar v) =>
        if ignore then
          if !in_list then some (le, p, rest)
          else parse_genre_list_loop alloc ignore fuel p rest in_list le
        else
          let r := movie_builder_add_genre alloc p.builder v
          let p2 := { p with builder := r.2 }
          let le2 := if r.1 then le else parse_invalid "out of memory when adding a genre"
          if !in_list then some (le2, p2, rest)
          else parse_genre_list_loop alloc ignore fuel p2 rest in_list le2
      | .ev .sequenceStart =>
        if in_list then
          match parse_consume (parse_invalid "internal sequence in genre list invalid") true
              fuel p rest with
          | none => none
          | some (err, p2, rest2) => parse_genre_list_loop alloc ignore fuel p2 rest2 in_list err
        else
          parse_genre_list_loop alloc ignore fuel p rest true le
      | .ev .sequenceEnd => some (le, p, rest)
      | .ev .mappingStart =>
        match parse_consume (parse_invalid "mapping unsupported in genre list") false
            fuel p rest with
        | none => none
        | some (err, p2, rest2) => parse_genre_list_loop alloc ignore fuel p2 rest2 in_list err
      | .ev .noEvent => parse_genre_list_loop alloc ignore fuel p rest in_list le
      | .ev .aliasEv => parse_genre_list_loop alloc ignore fuel p rest in_list le
      | .ev .streamEnd => some (genre_list_exit le, { p with done := true }, rest)
      | .ev .documentEnd => some (genre_list_exit le, p, rest)
      | .ev .documentStart => some (genre_list_exit le, p, rest)
      | .ev .mappingEnd => some (genre_list_exit le, p, rest)
      | .ev .streamStart => some (genre_list_exit le, p, rest)

/-- `parse_genre_list`: ignore the whole list when genres were already
set, otherwise mark the genre region start and collect scalars. -/
def parse_genre_list (alloc : Nat → Bool) (fuel : Nat) (p : ParserState) (evs : List YRead) :
    Option (Operation × ParserState × List YRead) :=
  let ignore := p.builder.has_genres
  let p1 := if ignore then p else { p with builder := movie_builder_start_genres p.builder }
  parse_genre_list_loop alloc ignore fuel p1 evs false Operation.parseDone

/-- `is_movie_done`. -/
def is_movie_done (b : MovieBuilder) : Bool :=
  b.has_id && b.has_title && b.has_director && b.has_release_year && b.has_genres

/-- `parse_movie_done`: materialize the current movie (one allocation
for the genre array) or report out-of-memory. -/
def parse_movie_done (alloc : Nat → Bool) (b : MovieBuilder) (ty : OpTy) :
    Operation × MovieBuilder :=
  match movie_builder_take_current_movie alloc b with
  | (none, b2) => (Operation.parseError "out of memory for movie input", b2)
  | (some m, b2) => (Operation.withMovie ty m, b2)

/-- `parse_movie_title`. -/
def parse_movie_title (alloc : Nat → Bool) (p : ParserState) (value : List Char)
    (le : Operation) : Operation × ParserState :=
  let r := movie_builder_set_title alloc p.builder value
  if r.1 then (le, { p with builder := r.2 })
  else (parse_invalid "out of memory for title input", { p with builder := r.2 })

/-- `parse_movie_director`. -/
def parse_movie_director (alloc : Nat → Bool) (p : ParserState) (value : List Char)
    (le : Operation) : Operation × ParserState :=
  let r := movie_builder_set_director alloc p.builder value
  if r.1 then (le, { p with builder := r.2 })
  else (parse_invalid "out of memory for director input", { p with builder := r.2 })

/-- `parse_movie_year`: `parse_i64` plus the `int` range check. -/
def parse_movie_year (p : ParserState) (value : List Char) (le : Operation) :
    Operation × ParserState :=
  match parse_i64 value with
  | none => (parse_invalid "release year is not a valid integer", p)
  | some y =>
    if y < INT_MIN ∨ y > INT_MAX then (parse_invalid "release year out of range", p)
    else (le, { p with builder := movie_builder_set_release_year p.builder y })

/-- The terminal return shared by the `parse_movie` exits: a complete
movie, else the recorded error, else the given generic error. -/
def parse_movie_exit (alloc : Nat → Bool) (p : ParserState) (le : Operation) (ty : OpTy)
    (msg : String) : Operation × ParserState :=
  if is_movie_done p.builder then
    let r := parse_movie_done alloc p.builder ty
    (r.1, { p with builder := r.2 })
  else if le.isParseError then (le, p)
  else (Operation.parseError msg, p)

/-- The loop of `parse_movie`.  In the scalar/`NONE` case outside a
mapping, the C `switch` records an error and then falls through into the
`TITLE_KEY` arm, treating the scalar as a title value. -/
def parse_movie_loop (alloc : Nat → Bool) (ty : OpTy) (fuel : Nat) (p : ParserState)
    (evs : List YRead) (in_mapping : Bool) (key : CurrentKey) (le : Operation) :
    Option (Operation × ParserState × List YRead) :=
  if p.done then some ((parse_movie_exit alloc p le ty "document ended unexpectedly").1,
    (parse_movie_exit alloc p le ty "document ended unexpectedly").2, evs)
  else match fuel, evs with
    | 0, _ => none
    | _ + 1, [] => none
    | fuel + 1, re :: rest =>
      match re with
      | .ioErr prob =>
        if is_movie_done p.builder then
          let r := parse_movie_done alloc p.builder ty
          some (r.1, { p with builder := r.2 }, rest)
        else some (parse_fail prob, p, rest)
      | .ev (.scalar v) =>
        match key with
        | .NONE =>
          if in_mapping then
            let k2 := parse_key v
            if k2 = .GENRE_KEY then
              match parse_genre_list alloc fuel p rest with
              | none => none
              | some (err, p2, rest2) =>
                let le2 := if err.isParseError then err else le
                parse_movie_loop alloc ty fuel p2 rest2 in_mapping .NONE le2
            else
              parse_movie_loop alloc ty fuel p rest in_mapping k2 le
          else
            -- fallthrough: record the error, then the TITLE_KEY arm runs
            let le1 := parse_invalid "invalid movie input, not inside a mapping"
            let r := if !p.builder.has_title then parse_movie_title alloc p v le1 else (le1, p)
            parse_movie_loop alloc ty fuel r.2 rest in_mapping .NONE r.1
        | .TITLE_KEY =>
          let r := if !p.builder.has_title then parse_movie_title alloc p v le else (le, p)
          parse_movie_loop alloc ty fuel r.2 rest in_mapping .NONE r.1
        | .DIRECTOR_KEY =>
          let r := if !p.builder.has_director then parse_movie_director alloc p v le else (le, p)
          parse_movie_loop alloc ty fuel r.2 rest in_mapping .NONE r.1
        | .YEAR_KEY =>
          let r := if !p.builder.has_release_year then parse_movie_year p v le else (le, p)
          parse_movie_loop alloc ty fuel r.2 rest in_mapping .NONE r.1
        | .GENRE_KEY =>
          parse_movie_loop alloc ty fuel p rest in_mapping .NONE
            (parse_invalid "unexpected genre key")
        | .ID_KEY => parse_movie_loop alloc ty fuel p rest in_mapping .NONE le
        | .OTHER_KEY => parse_movie_loop alloc ty fuel p rest in_mapping .NONE le
      | .ev .mappingStart =>
        if in_mapping then
          match parse_consume (parse_invalid "internal mapping invalid") false fuel p rest with
          | none => none
          | some (err, p2, rest2) => parse_movie_loop alloc ty fuel p2 rest2 in_mapping key err
        else
          parse_movie_loop alloc ty fuel p rest true key le
      | .ev .mappingEnd =>
        let p1 := if !in_mapping then { p with in_mapping := false } else p
        some ((parse_movie_exit alloc p1 le ty "operation incomplete").1,
          (parse_movie_exit alloc p1 le ty "operation incomplete").2, rest)
      | .ev .sequenceStart =>
        match parse_consume (parse_invalid "sequence unsupported in this operation") true
            fuel p rest with
        | none => none
        | some (err, p2, rest2) => parse_movie_loop alloc ty fuel p2 rest2 in_mapping key err
      | .ev .noEvent => parse_movie_loop alloc ty fuel p rest in_mapping key le
      | .ev .aliasEv => parse_movie_loop alloc ty fuel p rest in_mapping key le
      | .ev .streamEnd =>
        let p1 := { p with done := true }
        some ((parse_movie_exit alloc p1 le ty "document ended unexpectedly").1,
          (parse_movie_exit alloc p1 le ty "document ended unexpectedly").2, rest)
      | .ev .documentEnd =>
        some ((parse_movie_exit alloc p le ty "document ended unexpectedly").1,
          (parse_movie_exit alloc p le ty "document ended unexpectedly").2, rest)
      | .ev .documentStart =>
        some ((parse_movie_exit alloc p le ty "document ended unexpectedly").1,
          (parse_movie_exit alloc p le ty "document ended unexpectedly").2, rest)
      | .ev .sequenceEnd =>
        some ((parse_movie_exit alloc p le ty "document ended unexpectedly").1,
          (parse_movie_exit alloc p le ty "document ended unexpectedly").2, rest)
      | .ev .streamStart =>
        some ((parse_movie_exit alloc p le ty "document ended unexpectedly").1,
          (parse_movie_exit alloc p le ty "document ended unexpectedly").2, rest)

/-- `parse_movie(parser, ty)`: reset the builder, pre-set `id = 0`, and
walk the movie mapping. -/
def parse_movie (alloc : Nat → Bool) (fuel : Nat) (p : ParserState) (evs : List YRead)
    (ty : OpTy) : Option (Operation × ParserState × List YRead) :=
  let b := movie_builder_set_id (movie_builder_reset p.builder) 0
  parse_movie_loop alloc ty fuel { p with builder := b } evs false .NONE Operation.parseDone

/-- `is_movie_key_done`. -/
def is_movie_key_done (b : MovieBuilder) : Bool :=
  b.has_id && b.has_title

/-- `parse_movie_key_done`: take the current summary; its id is the
movie id and its title slot carries the genre input. -/
def parse_movie_key_done (b : MovieBuilder) (ty : OpTy) : Operation :=
  let s := movie_builder_take_current_summary b
  Operation.withKey ty { movie_id := s.1, genre := s.2 }

/-- `parse_movie_key_id`. -/
def parse_movie_key_id (p : ParserState) (value : List Char) (le : Operation) :
    Operation × ParserState :=
  match parse_i64 value with
  | none => (parse_invalid "movie id is not a valid integer", p)
  | some i => (le, { p with builder := movie_builder_set_id p.builder i })

/-- `parse_movie_key_genre`. -/
def parse_movie_key_genre (alloc : Nat → Bool) (p : ParserState) (value : List Char)
    (le : Operation) : Operation × ParserState :=
  let r := movie_builder_set_title alloc p.builder value
  if r.1 then (le, { p with builder := r.2 })
  else (parse_invalid "out of memory for genre input", { p with builder := r.2 })

/-- A terminal return of `parse_movie_key`: a complete key, else the
recorded error, else the given generic error. -/
def parse_movie_key_exit (p : ParserState) (le : Operation) (ty : OpTy) (msg : String) :
    Operation :=
  if is_movie_key_done p.builder then parse_movie_key_done p.builder ty
  else if le.isParseError then le
  else Operation.parseError msg

/-- The loop of `parse_movie_key`.  Note that the code after the loop
(reached when the parser was already finished) checks `is_movie_done`
and calls `parse_movie_done`, exactly as the C code does. -/
def parse_movie_key_loop (alloc : Nat → Bool) (ty : OpTy) (fuel : Nat) (p : ParserState)
    (evs : List YRead) (in_mapping : Bool) (key : CurrentKey) (le : Operation) :
    Option (Operation × ParserState × List YRead) :=
  if p.done then some ((parse_movie_exit alloc p le ty "document ended unexpectedly").1,
    (parse_movie_exit alloc p le ty "document ended unexpectedly").2, evs)
  else match fuel, evs with
    | 0, _ => none
    | _ + 1, [] => none
    | fuel + 1, re :: rest =>
      match re with
      | .ioErr prob =>
        if is_movie_key_done p.builder then some (parse_movie_key_done p.builder ty, p, rest)
        else some (parse_fail prob, p, rest)
      | .ev (.scalar v) =>
        match key with
        | .NONE =>
          if in_mapping then
            parse_movie_key_loop alloc ty fuel p rest in_mapping (parse_key v) le
          else if !p.builder.has_id && p.builder.has_title then
            let r := parse_movie_key_id p v le
            parse_movie_key_loop alloc ty fuel r.2 rest in_mapping .NONE r.1
          else if p.builder.has_id && !p.builder.has_title then
            let r := parse_movie_key_genre alloc p v le
            parse_movie_key_loop alloc ty fuel r.2 rest in_mapping .NONE r.1
          else
            parse_movie_key_loop alloc ty fuel p rest in_mapping .NONE
              (parse_invalid "invalid input for operation")
        | .ID_KEY =>
          let r := if !p.builder.has_id then parse_movie_key_id p v le else (le, p)
          parse_movie_key_loop alloc ty fuel r.2 rest in_mapping .NONE r.1
        | .GENRE_KEY =>
          let r := if !p.builder.has_title then parse_movie_key_genre alloc p v le else (le, p)
          parse_movie_key_loop alloc ty fuel r.2 rest in_mapping .NONE r.1
        | .TITLE_KEY => parse_movie_key_loop alloc ty fuel p rest in_mapping .NONE le
        | .DIRECTOR_KEY => parse_movie_key_loop alloc ty fuel p rest in_mapping .NONE le
        | .YEAR_KEY => parse_movie_key_loop alloc ty fuel p rest in_mapping .NONE le
        | .OTHER_KEY => parse_movie_key_loop alloc ty fuel p rest in_mapping .NONE le
      | .ev .mappingStart =>
        if in_mapping then
          match parse_consume (parse_invalid "internal mapping invalid") false fuel p rest with
          | none => none
          | some (err, p2, rest2) =>
            parse_movie_key_loop alloc ty fuel p2 rest2 in_mapping key err
        else
          parse_movie_key_loop alloc ty fuel p rest true key le
      | .ev .mappingEnd =>
        let p1 := if !in_mapping then { p with in_mapping := false } else p
        some (parse_movie_key_exit p1 le ty "operation incomplete", p1, rest)
      | .ev .sequenceStart =>
        match parse_consume (parse_invalid "sequence unsupported in this operation") true
            fuel p rest with
        | none => none
        | some (err, p2, rest2) =>
          parse_movie_key_loop alloc ty fuel p2 rest2 in_mapping key err
      | .ev .noEvent => parse_movie_key_loop alloc ty fuel p rest in_mapping key le
      | .ev .aliasEv => parse_movie_key_loop alloc ty fuel p rest in_mapping key le
      | .ev .streamEnd =>
        let p1 := { p with done := true }
        some (parse_movie_key_exit p1 le ty "document ended unexpectedly", p1, rest)
      | .ev .documentEnd =>
        some (parse_movie_key_exit p le ty "document ended unexpectedly", p, rest)
      | .ev .documentStart =>
        some (parse_movie_key_exit p le ty "document ended unexpectedly", p, rest)
      | .ev .sequenceEnd =>
        some (parse_movie_key_exit p le ty "document ended unexpectedly", p, rest)
      | .ev .streamStart =>
        some (parse_movie_key_exit p le ty "document ended unexpectedly", p, rest)

/-- `parse_movie_key(parser, ty, needs_id, needs_genre)`: reset the
builder and pre-fill the field that the operation does not request (the
empty genre goes through `movie_builder_set_title`, whose boolean result
the C code discards). -/
def parse_movie_key (alloc : Nat → Bool) (fuel : Nat) (p : ParserState) (evs : List YRead)
    (ty : OpTy) (needs_id needs_genre : Bool) :
    Option (Operation × ParserState × List YRead) :=
  let b0 := movie_builder_reset p.builder
  let b1 := if needs_id then b0 else movie_builder_set_id b0 0
  let b2 := if needs_genre then b1 else (movie_builder_set_title alloc b1 []).2
  parse_movie_key_loop alloc ty fuel { p with builder := b2 } evs false .NONE Operation.parseDone

/-- `parser_next_op`: the top-level operation reader. -/
def parser_next_op (alloc : Nat → Bool) (fuel : Nat) (p : ParserState) (evs : List YRead) :
    Option (Operation × ParserState × List YRead) :=
  if p.done then some ((parse_done p).1, (parse_done p).2, evs)
  else match fuel, evs with
    | 0, _ => none
    | _ + 1, [] => none
    | fuel + 1, re :: rest =>
      match re with
      | .ioErr prob => some (parse_fail prob, p, rest)
      | .ev (.scalar v) =>
        let ty := parse_ty v
        if p.in_mapping then
          match ty with
          | .ADD_MOVIE => parse_movie alloc fuel p rest ty
          | .ADD_GENRE => parse_movie_key alloc fuel p rest ty true true
          | .GET_MOVIE => parse_movie_key alloc fuel p rest ty true false
          | .REMOVE_MOVIE => parse_movie_key alloc fuel p rest ty true false
          | .SEARCH_BY_GENRE => parse_movie_key alloc fuel p rest ty false true
          | .LIST_SUMMARIES => parse_movie_key alloc fuel p rest ty false false
          | .LIST_MOVIES => parse_movie_key alloc fuel p rest ty false false
          | _ => some (parse_invalid "unrecognized operation key", p, rest)
        else
          match ty with
          | .LIST_SUMMARIES => some (Operation.bare ty, p, rest)
          | .LIST_MOVIES => some (Operation.bare ty, p, rest)
          | .GET_MOVIE => some (parse_invalid "operation requires a dictionary", p, rest)
          | .REMOVE_MOVIE => some (parse_invalid "operation requires a dictionary", p, rest)
          | .SEARCH_BY_GENRE => some (parse_invalid "operation requires a dictionary", p, rest)
          | .ADD_MOVIE => some (parse_invalid "operation requires a dictionary", p, rest)
          | .ADD_GENRE => some (parse_invalid "operation requires a dictionary", p, rest)
          | _ => some (parse_invalid "unrecognized operation key", p, rest)
      | .ev .mappingStart =>
        if p.in_mapping then
          some (parse_invalid "another operation start without finishing the first one", p, rest)
        else
          parser_next_op alloc fuel { p with in_mapping := true } rest
      | .ev .mappingEnd =>
        if !p.in_mapping then
          some (parse_invalid "finishing an unstarted operation", p, rest)
        else
          parser_next_op alloc fuel { p with in_mapping := false } rest
      | .ev .streamEnd =>
        some ((parse_done p).1, (parse_done p).2, rest)
      | .ev .noEvent => parser_next_op alloc fuel p rest
      | .ev .aliasEv => parser_next_op alloc fuel p rest
      | .ev .streamStart => parser_next_op alloc fuel p rest
      | .ev .documentStart => parser_next_op alloc fuel p rest
      | .ev .documentEnd => parser_next_op alloc fuel p rest
      | .ev .sequenceStart => parser_next_op alloc fuel p rest
      | .ev .sequenceEnd => parser_next_op alloc fuel p rest



/-! ## Specification-side definitions and concrete demonstration states -/

/-- A queue is full in the sense of the specification sentence
"size = tail − head; if size ≥ C return false". -/
def queue_full (q : WorkQueue) : Prop :=
  workq_size q.head q.tail ≥ (WORK_QUEUE_CAPACITY : Int)

/-- An empty queue with both tickets at zero. -/
def demoEmptyQueue : WorkQueue := { head := 0, tail := 0, buf := fun _ => 0, signals := 0 }

/-- A full queue: 128 pushed items, none popped. -/
def demoFullQueue : WorkQueue := { head := 0, tail := 128, buf := fun _ => 0, signals := 0 }

/-- A queue holding a single item, value 42. -/
def demoOneQueue : WorkQueue := { head := 0, tail := 1, buf := fun _ => 42, signals := 0 }

/-- A queue is empty in the sense of the specification sentence
"if tail − head ≤ 0 ... still empty → return false". -/
def queue_empty (q : WorkQueue) : Prop :=
  workq_size q.head q.tail ≤ 0

/-- A pool state with all 128 workers alive in front of a full queue. -/
def demoBusyPool : Workers := { alive := List.replicate 128 true, queue := demoFullQueue }

/-- A pool state with all 128 workers dead in front of a full queue. -/
def demoDeadPool : Workers := { alive := List.replicate 128 false, queue := demoFullQueue }

/-- An all-zero record descriptor. -/
def demoRef : MovieRef :=
  { movie_id := 0, title_slice := 0, director_slice := 0, release_year := 0,
    genres_slice := 0, genres_count := 0 }

/-- A builder with no capacity at all, so that any growing mutation must
call the allocator. -/
def demoBuilder : MovieBuilder :=
  { current := demoRef,
    has_id := false, has_title := false, has_director := false,
    has_release_year := false, has_genres := false,
    str_data := fun _ => nulChar, str_capacity := 0, str_in_use := 0,
    movie_list := fun _ => demoRef, list_capacity := 0, list_size := 0,
    allocCtr := 0 }

/-- A fresh parser over a zero-capacity builder. -/
def demoParser : ParserState :=
  { done := false, in_mapping := false, builder := demoBuilder }

/-- A parser whose stream already ended. -/
def doneParser : ParserState :=
  { done := true, in_mapping := false, builder := demoBuilder }


/-- The implicit pre-fill property of operation payloads: GetMovie and
RemoveMovie carry the empty genre string, SearchByGenre carries movie id
zero. -/
def key_prefill_ok : Operation → Prop
  | .withKey .GET_MOVIE k => k.genre = []
  | .withKey .REMOVE_MOVIE k => k.genre = []
  | .withKey .SEARCH_BY_GENRE k => k.movie_id = 0
  | _ => True

/-- Invariant clause for GetMovie/RemoveMovie runs of the key
sub-parser: the title slot (holding the pre-filled genre) reads as the
empty string and stays claimed. -/
def genre_inv (ty : OpTy) (b : MovieBuilder) : Prop :=
  (ty = .GET_MOVIE ∨ ty = .REMOVE_MOVIE) →
    b.has_title = true ∧ b.str_data b.current.title_slice = nulChar

/-- Invariant clause for SearchByGenre runs of the key sub-parser: the
id slot stays claimed at zero. -/
def id_inv (ty : OpTy) (b : MovieBuilder) : Prop :=
  ty = .SEARCH_BY_GENRE → b.has_id = true ∧ b.current.movie_id = 0

/-- A fresh builder as `movie_builder_create` returns it: one arena page
already allocated. -/
def demoBuilderPage : MovieBuilder :=
  { current := demoRef,
    has_id := false, has_title := false, has_director := false,
    has_release_year := false, has_genres := false,
    str_data := fun _ => nulChar, str_capacity := 4096, str_in_use := 0,
    movie_list := fun _ => demoRef, list_capacity := 1, list_size := 0,
    allocCtr := 0 }

/-- A fresh parser over the fresh builder. -/
def demoParserPage : ParserState :=
  { done := false, in_mapping := false, builder := demoBuilderPage }

/-- The pre-fill property lifted over an optAPI result. -/
def key_prefill_ok_opt : Option (Operation × ParserState × List YRead) → Prop
  | none => True
  | some r => key_prefill_ok r.1

/-- The events of a concrete `get_movie: 7` request. -/
def demoKeyEvents : List YRead :=
  [.ev .mappingStart, .ev (.scalar "get_movie".toList), .ev (.scalar "7".toList),
    .ev .mappingEnd]

/-- Addresses of error-message strings handled by the data-access
layer: the three static sentinel strings of `database.c`, or a heap
allocation identified by its allocation number. -/
inductive ErrMsgPtr
  | unknownError
  | outOfMemoryError
  | atexitError
  | heap (id : Nat)
  deriving Repr, DecidableEq

/-- Contents of the string at each address (the sentinel texts from
`database.c`; heap contents are given by the heap map). -/
def errmsg_content (heap : Nat → String) : ErrMsgPtr → String
  | .unknownError => "unknown error"
  | .outOfMemoryError => "out of memory"
  | .atexitError => "could not call at_exit"
  | .heap i => heap i

/-- `is_predefined_errmsg`: pointer-identity comparison against the
three static sentinels (addresses, not contents). -/
def is_predefined_errmsg (m : ErrMsgPtr) : Bool :=
  m = .unknownError || m = .outOfMemoryError || m = .atexitError

/-- `errmsg_dup`: sentinels pass through unchanged; a NULL source (for
which the sentinel identity test is false) yields the unknown-error
sentinel; a failed `calloc` yields the out-of-memory sentinel; otherwise
the text is copied into a fresh heap string. -/
def errmsg_dup (src : Option ErrMsgPtr) (allocOk : Bool) (freshId : Nat) : ErrMsgPtr :=
  match src with
  | some m =>
    if is_predefined_errmsg m then m
    else if allocOk then .heap freshId
    else .outOfMemoryError
  | none => .unknownError

/-- `db_free_errmsg`: call `free` unless the pointer is one of the
static sentinels.  Returns whether `free` was called. -/
def db_free_errmsg (m : ErrMsgPtr) : Bool :=
  !(is_predefined_errmsg m)

end MovieServer

namespace MovieServer

/-! ## Theorems: work queue -/

theorem demoEmptyQueue_not_full : ¬ queue_full demoEmptyQueue := by
  norm_num [queue_full, workq_size, demoEmptyQueue, U64, WORK_QUEUE_CAPACITY, INT_FAST64_MAX]

theorem demoFullQueue_full : queue_full demoFullQueue := by
  norm_num [queue_full, workq_size, demoFullQueue, U64, WORK_QUEUE_CAPACITY, INT_FAST64_MAX]

/-- C1: `workq_push` returns `false` and leaves the queue unchanged when
the queue is full (`tail − head ≥ C` with `C = WORK_QUEUE_CAPACITY =
128`); otherwise it writes the item into slot `tail mod C`, leaves every
other slot and `head` unchanged, publishes `tail + 1`, signals exactly
one waiter, and returns `true`. -/
theorem workq_push_spec (q : WorkQueue) (item : Int) :
    WORK_QUEUE_CAPACITY = 128 ∧
    (queue_full q → workq_push q item = (false, q)) ∧
    (¬ queue_full q →
      (workq_push q item).1 = true ∧
      (workq_push q item).2.buf (idx q.tail) = item ∧
      (∀ j, j ≠ idx q.tail → (workq_push q item).2.buf j = q.buf j) ∧
      (workq_push q item).2.tail = (q.tail + 1) % U64 ∧
      (workq_push q item).2.head = q.head ∧
      (workq_push q item).2.signals = q.signals + 1) := by
  refine ⟨rfl, ?_, ?_⟩
  · intro hfull
    simp only [workq_push, queue_full] at hfull ⊢
    rw [if_pos hfull, if_pos hfull]
  · intro hnf
    simp only [workq_push, queue_full] at hnf ⊢
    rw [if_neg hnf]
    refine ⟨rfl, by simp [workq_signal_item_added], ?_, rfl, rfl, rfl⟩
    intro j hj
    simp [workq_signal_item_added, hj]

/-- Witness for C1: on the empty queue the push succeeds and stores the
item at slot 0, and on a full queue it fails and changes nothing. -/
theorem workq_push_spec_witness :
    (workq_push demoEmptyQueue 7).1 = true ∧
    (workq_push demoEmptyQueue 7).2.buf (idx demoEmptyQueue.tail) = 7 ∧
    workq_push demoFullQueue 7 = (false, demoFullQueue) := by
  have s0 := workq_push_spec demoEmptyQueue 7
  have sf := workq_push_spec demoFullQueue 7
  exact ⟨(s0.2.2 demoEmptyQueue_not_full).1, (s0.2.2 demoEmptyQueue_not_full).2.1,
    sf.2.1 demoFullQueue_full⟩

instance (q : WorkQueue) : Decidable (queue_empty q) := by
  unfold queue_empty; infer_instance

/-- C2: `workq_pop` returns `false` (modelled `none`) leaving the queue
unchanged exactly when the queue is empty (`tail − head ≤ 0` after the
tail reload); otherwise it returns the item read from slot
`head mod C`, advances `head` by exactly one, and leaves `tail`, the
slots and the condition state unchanged. -/
theorem workq_pop_spec (q : WorkQueue) :
    ((workq_pop q).1 = none ↔ queue_empty q) ∧
    (queue_empty q → workq_pop q = (none, q)) ∧
    (¬ queue_empty q →
      (workq_pop q).1 = some (q.buf (idx q.head)) ∧
      (workq_pop q).2.head = (q.head + 1) % U64 ∧
      (workq_pop q).2.tail = q.tail ∧
      (workq_pop q).2.buf = q.buf ∧
      (workq_pop q).2.signals = q.signals) := by
  by_cases h : queue_empty q
  · simp only [queue_empty] at h
    refine ⟨?_, ?_, ?_⟩
    · simp [workq_pop, h, queue_empty]
    · intro _; simp [workq_pop, h]
    · intro hc; exact absurd h hc
  · simp only [queue_empty] at h
    refine ⟨?_, fun hc => absurd hc h, ?_⟩
    · simp [workq_pop, h, queue_empty]
    · intro _
      simp [workq_pop, h]

/-- Witness for C2: popping a one-element queue yields the stored item
and advances `head` to 1; popping the empty queue fails. -/
theorem workq_pop_spec_witness :
    (workq_pop demoOneQueue).1 = some 42 ∧ (workq_pop demoOneQueue).2.head = 1 ∧
    (workq_pop demoEmptyQueue).1 = none := by
  have h1 : ¬ queue_empty demoOneQueue := by
    norm_num [queue_empty, workq_size, demoOneQueue, U64, WORK_QUEUE_CAPACITY, INT_FAST64_MAX]
  have h0 : queue_empty demoEmptyQueue := by
    norm_num [queue_empty, workq_size, demoEmptyQueue, U64, WORK_QUEUE_CAPACITY, INT_FAST64_MAX]
  have s1 := workq_pop_spec demoOneQueue
  have s0 := workq_pop_spec demoEmptyQueue
  refine ⟨?_, (s1.2.2 h1).2.1, s0.1.mpr h0⟩
  have := (s1.2.2 h1).1
  simpa [demoOneQueue, idx] using this

/-- C9: the ring capacity 128 is a power of two whose residue class
covers the full unsigned 64-bit counter domain without aliasing:
`UINT64_MAX mod C = C − 1`, and for monotone 64-bit counters reduced
modulo `2^64`, the `idx` map sends any window of up to `C` consecutive
tickets (the live slots) to pairwise distinct ring indices, even across
the wrap-around at the maximum counter value. -/
theorem workq_capacity_no_alias :
    WORK_QUEUE_CAPACITY = 128 ∧
    (∃ k, WORK_QUEUE_CAPACITY = 2 ^ k) ∧
    (U64 - 1) % WORK_QUEUE_CAPACITY = WORK_QUEUE_CAPACITY - 1 ∧
    (∀ head i j, i < WORK_QUEUE_CAPACITY → j < WORK_QUEUE_CAPACITY →
      idx ((head + i) % U64) = idx ((head + j) % U64) → i = j) := by
  refine ⟨rfl, ⟨7, rfl⟩, by norm_num [U64, WORK_QUEUE_CAPACITY], ?_⟩
  intro head i j hi hj hij
  have hdvd : WORK_QUEUE_CAPACITY ∣ U64 := ⟨2 ^ 57, by norm_num [U64, WORK_QUEUE_CAPACITY]⟩
  unfold idx at hij
  rw [Nat.mod_mod_of_dvd _ hdvd, Nat.mod_mod_of_dvd _ hdvd] at hij
  simp only [WORK_QUEUE_CAPACITY] at hij hi hj
  omega

/-- Witness for C9: instantiating the no-aliasing clause across the
64-bit wrap-around boundary at concrete offsets. -/
theorem workq_capacity_no_alias_witness : (5 : Nat) = 5 :=
  workq_capacity_no_alias.2.2.2 (U64 - 3) 5 5 (by decide) (by decide) rfl

/-! ## Theorems: worker pool admission -/

/-- Pushing onto a full queue fails and leaves the queue unchanged
(shared helper, re-proved from the definition). -/
theorem workq_push_full_eq {q : WorkQueue} (h : queue_full q) (item : Int) :
    workq_push q item = (false, q) := by
  simp only [workq_push, queue_full] at h ⊢
  rw [if_pos h, if_pos h]

theorem restart_go_length (ok : Nat → Bool) :
    ∀ i ws, (restart_dead_workers_go ok i ws).2.length = ws.length := by
  intro i ws
  induction ws generalizing i with
  | nil => rfl
  | cons w ws ih =>
    simp only [restart_dead_workers_go]
    split <;> simp [ih]
    split <;> simp [ih]

theorem restart_go_dead_le (ok : Nat → Bool) :
    ∀ i ws, (restart_dead_workers_go ok i ws).1 ≤ ws.length := by
  intro i ws
  induction ws generalizing i with
  | nil => simp [restart_dead_workers_go]
  | cons w ws ih =>
    simp only [restart_dead_workers_go, List.length_cons]
    split
    · exact le_trans (ih (i + 1)) (Nat.le_succ _)
    · split
      · exact le_trans (ih (i + 1)) (Nat.le_succ _)
      · exact Nat.succ_le_succ (ih (i + 1))

theorem restart_go_dead_lt (ok : Nat → Bool) :
    ∀ i ws, true ∈ ws → (restart_dead_workers_go ok i ws).1 < ws.length := by
  intro i ws
  induction ws generalizing i with
  | nil => intro h; cases h
  | cons w ws ih =>
    intro hmem
    simp only [restart_dead_workers_go, List.length_cons]
    rcases List.mem_cons.mp hmem with hw | htail
    · rw [if_pos hw.symm]
      exact Nat.lt_succ_of_le (restart_go_dead_le ok (i + 1) ws)
    · split
      · exact Nat.lt_succ_of_le (restart_go_dead_le ok (i + 1) ws)
      · split
        · exact Nat.lt_succ_of_le (restart_go_dead_le ok (i + 1) ws)
        · exact Nat.succ_lt_succ (ih (i + 1) htail)

theorem restart_go_mem_true (ok : Nat → Bool) :
    ∀ i ws, true ∈ ws → true ∈ (restart_dead_workers_go ok i ws).2 := by
  intro i ws
  induction ws generalizing i with
  | nil => intro h; cases h
  | cons w ws ih =>
    intro hmem
    simp only [restart_dead_workers_go]
    rcases List.mem_cons.mp hmem with hw | htail
    · rw [if_pos hw.symm, ← hw]
      exact List.mem_cons_self _ _
    · split
      · exact List.mem_cons_of_mem _ (ih (i + 1) htail)
      · split
        · exact List.mem_cons_self _ _
        · exact List.mem_cons_of_mem _ (ih (i + 1) htail)

theorem restart_go_dead_all (ok : Nat → Bool) (hok : ∀ i, ok i = false) :
    ∀ i ws, (∀ b ∈ ws, b = false) → (restart_dead_workers_go ok i ws).1 = ws.length := by
  intro i ws
  induction ws generalizing i with
  | nil => intro _; rfl
  | cons w ws ih =>
    intro hall
    have hw : w = false := hall w (List.mem_cons_self _ _)
    have htail : ∀ b ∈ ws, b = false := fun b hb => hall b (List.mem_cons_of_mem _ hb)
    simp only [restart_dead_workers_go, hw, hok, Bool.false_eq_true, if_false,
      List.length_cons]
    rw [ih (i + 1) htail]

/-- On a persistently full queue with at least one live worker among the
128 probed slots, the admission loop never returns, whatever the
iteration budget. -/
theorem workers_add_work_spin (ok : Nat → Bool) (fd : Int) :
    ∀ fuel (st : Workers), queue_full st.queue → st.alive.length = WORKERS_CAPACITY →
      true ∈ st.alive → workers_add_work ok fuel st fd = none := by
  intro fuel
  induction fuel with
  | zero => intro st _ _ _; rfl
  | succ n ih =>
    intro st hfull hlen hmem
    have hlt : (restart_dead_workers_go ok 0 st.alive).1 < WORKERS_CAPACITY := by
      rw [← hlen]; exact restart_go_dead_lt ok 0 st.alive hmem
    simp only [workers_add_work, restart_dead_workers, workq_push_full_eq hfull fd,
      decide_eq_true hlt, Bool.not_true, Bool.false_eq_true, if_false]
    exact ih _ hfull (by rw [restart_go_length]; exact hlen)
      (restart_go_mem_true ok 0 st.alive hmem)

/-- C3 (amended): `workers_add_work(workers, fd)` takes no retry count
and never gives up because the queue is full: while the queue stays full
and at least one of the `WORKERS_CAPACITY` workers is live, every
iteration pauses and retries, so the call does not return within any
finite iteration budget.  It returns `false` only when all workers are
dead and every respawn attempt fails. -/
theorem workers_add_work_unbounded_retry (ok : Nat → Bool) (fd : Int) :
    (∀ fuel (st : Workers), queue_full st.queue → st.alive.length = WORKERS_CAPACITY →
      true ∈ st.alive → workers_add_work ok fuel st fd = none) ∧
    (∀ fuel (st : Workers), (∀ b ∈ st.alive, b = false) →
      st.alive.length = WORKERS_CAPACITY → (∀ i, ok i = false) →
      (workers_add_work ok (fuel + 1) st fd).map Prod.fst = some false) := by
  constructor
  · exact fun fuel st h1 h2 h3 => workers_add_work_spin ok fd fuel st h1 h2 h3
  · intro fuel st hall hlen hok
    have hdead : (restart_dead_workers_go ok 0 st.alive).1 = WORKERS_CAPACITY := by
      rw [← hlen]; exact restart_go_dead_all ok hok 0 st.alive hall
    simp [workers_add_work, restart_dead_workers, hdead]

/-- Witness for C3: with every worker alive and the queue full, even one
million iterations do not make the call return, while an all-dead pool
makes it return `false` at once. -/
theorem workers_add_work_unbounded_retry_witness :
    workers_add_work (fun _ => true) 1000000 demoBusyPool 5 = none ∧
    (workers_add_work (fun _ => false) 1 demoDeadPool 5).map Prod.fst = some false := by
  constructor
  · exact (workers_add_work_unbounded_retry (fun _ => true) 5).1 1000000 demoBusyPool
      demoFullQueue_full (by simp [demoBusyPool, WORKERS_CAPACITY]) (by simp [demoBusyPool])
  · exact (workers_add_work_unbounded_retry (fun _ => false) 5).2 0 demoDeadPool
      (by simp [demoDeadPool]) (by simp [demoDeadPool, WORKERS_CAPACITY]) (fun _ => rfl)

/-- Counterexample for C3 as stated: the claim says a full queue makes
`workers_add_work` return `false` once the caller-supplied retry count
is exhausted, but the function has no retry-count parameter at all and,
with one live worker and the queue staying full, it has still not
returned (in particular has not returned `false`) after one million
retry iterations. -/
theorem workers_add_work_no_retry_counterexample :
    workers_add_work (fun _ => true) 1000000
      { alive := List.replicate 128 true, queue := demoFullQueue } 5 = none := by
  exact workers_add_work_spin (fun _ => true) 5 1000000 _
    demoFullQueue_full (by simp [WORKERS_CAPACITY]) (by simp)

/-! ## Theorems: integer parsing -/

theorem dropWhile_append_all {p : Char → Bool} :
    ∀ (a b : List Char), (∀ c ∈ a, p c = true) →
      List.dropWhile p (a ++ b) = List.dropWhile p b := by
  intro a b h
  induction a with
  | nil => rfl
  | cons c t ih =>
    have hc : p c = true := h c (List.mem_cons_self _ _)
    simp only [List.cons_append, List.dropWhile_cons_of_pos hc]
    exact ih (fun x hx => h x (List.mem_cons_of_mem _ hx))

theorem digit_not_space {c : Char} (h : isDigitC c = true) : isSpaceC c = false := by
  simp only [isDigitC, Bool.and_eq_true, decide_eq_true_eq] at h
  obtain ⟨h1, h2⟩ := h
  have e1 : c ≠ ' ' := fun e => absurd (e ▸ h1) (by decide)
  have e2 : c ≠ '\t' := fun e => absurd (e ▸ h1) (by decide)
  have e3 : c ≠ '\n' := fun e => absurd (e ▸ h1) (by decide)
  have e4 : c ≠ '\x0b' := fun e => absurd (e ▸ h1) (by decide)
  have e5 : c ≠ '\x0c' := fun e => absurd (e ▸ h1) (by decide)
  have e6 : c ≠ '\r' := fun e => absurd (e ▸ h1) (by decide)
  simp [isSpaceC, e1, e2, e3, e4, e5, e6]

theorem digit_ne_minus {c : Char} (h : isDigitC c = true) : c ≠ '-' :=
  fun e => absurd (e ▸ h) (by decide)

theorem digit_ne_plus {c : Char} (h : isDigitC c = true) : c ≠ '+' :=
  fun e => absurd (e ▸ h) (by decide)

theorem strtollSign_minus (t : List Char) : strtollSign ('-' :: t) = (-1, t) := by
  simp [strtollSign]

theorem strtollSign_plus (t : List Char) : strtollSign ('+' :: t) = (1, t) := by
  simp [strtollSign]

theorem strtollSign_other {c : Char} (h1 : c ≠ '-') (h2 : c ≠ '+') (t : List Char) :
    strtollSign (c :: t) = (1, c :: t) := by
  simp [strtollSign, h1, h2]

theorem strtoll10_noConv {s : List Char}
    (hd : ((strtollSign (s.dropWhile isSpaceC)).2.takeWhile isDigitC) = []) :
    strtoll10 s = { value := 0, restAfter := s, noConv := true, erange := false } := by
  simp only [strtoll10]
  rw [if_pos hd]

theorem strtoll10_ok {s : List Char}
    (hd : ((strtollSign (s.dropWhile isSpaceC)).2.takeWhile isDigitC) ≠ [])
    (hhi : ¬ (strtollSign (s.dropWhile isSpaceC)).1 *
      (digitsVal ((strtollSign (s.dropWhile isSpaceC)).2.takeWhile isDigitC) : Int) > INT64_MAX)
    (hlo : ¬ (strtollSign (s.dropWhile isSpaceC)).1 *
      (digitsVal ((strtollSign (s.dropWhile isSpaceC)).2.takeWhile isDigitC) : Int) < INT64_MIN) :
    strtoll10 s = ⟨(strtollSign (s.dropWhile isSpaceC)).1 *
        (digitsVal ((strtollSign (s.dropWhile isSpaceC)).2.takeWhile isDigitC) : Int),
      (strtollSign (s.dropWhile isSpaceC)).2.dropWhile isDigitC,
      false, false⟩ := by
  simp only [strtoll10]
  rw [if_neg hd, if_neg hhi, if_neg hlo]

theorem strtoll10_hi {s : List Char}
    (hd : ((strtollSign (s.dropWhile isSpaceC)).2.takeWhile isDigitC) ≠ [])
    (hhi : (strtollSign (s.dropWhile isSpaceC)).1 *
      (digitsVal ((strtollSign (s.dropWhile isSpaceC)).2.takeWhile isDigitC) : Int) > INT64_MAX) :
    strtoll10 s = ⟨INT64_MAX,
      (strtollSign (s.dropWhile isSpaceC)).2.dropWhile isDigitC, false, true⟩ := by
  simp only [strtoll10]
  rw [if_neg hd, if_pos hhi]

theorem strtoll10_lo {s : List Char}
    (hd : ((strtollSign (s.dropWhile isSpaceC)).2.takeWhile isDigitC) ≠ [])
    (hhi : ¬ (strtollSign (s.dropWhile isSpaceC)).1 *
      (digitsVal ((strtollSign (s.dropWhile isSpaceC)).2.takeWhile isDigitC) : Int) > INT64_MAX)
    (hlo : (strtollSign (s.dropWhile isSpaceC)).1 *
      (digitsVal ((strtollSign (s.dropWhile isSpaceC)).2.takeWhile isDigitC) : Int) < INT64_MIN) :
    strtoll10 s = ⟨INT64_MIN,
      (strtollSign (s.dropWhile isSpaceC)).2.dropWhile isDigitC, false, true⟩ := by
  simp only [strtoll10]
  rw [if_neg hd, if_neg hhi, if_pos hlo]

/-- Characterization of a successful `parse_i64` in terms of the
implementation components. -/
theorem parse_i64_some_iff (s : List Char) (v : Int) :
    parse_i64 s = some v ↔
      s ≠ [] ∧
      (strtollSign (s.dropWhile isSpaceC)).2.takeWhile isDigitC ≠ [] ∧
      (strtollSign (s.dropWhile isSpaceC)).2.dropWhile isDigitC = [] ∧
      v = (strtollSign (s.dropWhile isSpaceC)).1 *
        (digitsVal ((strtollSign (s.dropWhile isSpaceC)).2.takeWhile isDigitC) : Int) ∧
      INT64_MIN ≤ v ∧ v ≤ INT64_MAX := by
  by_cases hs : s = []
  · subst hs
    simp [parse_i64]
  rw [parse_i64, if_neg hs]
  by_cases hd : (strtollSign (s.dropWhile isSpaceC)).2.takeWhile isDigitC = []
  · rw [strtoll10_noConv hd]
    simp [hd]
  by_cases hhi : (strtollSign (s.dropWhile isSpaceC)).1 *
      (digitsVal ((strtollSign (s.dropWhile isSpaceC)).2.takeWhile isDigitC) : Int) > INT64_MAX
  · rw [strtoll10_hi hd hhi]
    simp only [Bool.true_or, if_true]
    constructor
    · intro h; cases h
    · rintro ⟨_, _, _, hv, _, hle⟩
      exact absurd (hv ▸ hle) (not_le.mpr hhi)
  by_cases hlo : (strtollSign (s.dropWhile isSpaceC)).1 *
      (digitsVal ((strtollSign (s.dropWhile isSpaceC)).2.takeWhile isDigitC) : Int) < INT64_MIN
  · rw [strtoll10_lo hd hhi hlo]
    simp only [Bool.false_or, Bool.true_or, Bool.or_true, if_true]
    constructor
    · intro h; cases h
    · rintro ⟨_, _, _, hv, hge, _⟩
      exact absurd (hv ▸ hge) (not_le.mpr hlo)
  rw [strtoll10_ok hd hhi hlo]
  by_cases h3 : (strtollSign (s.dropWhile isSpaceC)).2.dropWhile isDigitC = []
  · simp only [h3, List.isEmpty_nil, Bool.not_true, Bool.or_false,
      decide_eq_false hhi, decide_eq_false hlo, Bool.false_or, Bool.or_self,
      Bool.false_eq_true, if_false, Option.some_inj]
    constructor
    · intro hv
      exact ⟨hs, hd, trivial, hv.symm, hv ▸ not_lt.mp hlo, hv ▸ not_lt.mp hhi⟩
    · rintro ⟨-, -, -, hv, -, -⟩
      exact hv.symm
  · rw [if_pos]
    · simp [h3]
    · simp [h3]

/-- Equivalence between the embedded `parse_i64` and its declarative
amended specification. -/
theorem parse_i64_spec_amended (s : List Char) (v : Int) :
    parse_i64 s = some v ↔ parse_i64_amended s v := by
  rw [parse_i64_some_iff]
  constructor
  · rintro ⟨hs, hd, h3, hv, hlo, hhi⟩
    cases hr1 : s.dropWhile isSpaceC with
    | nil =>
      rw [hr1] at hd
      simp [strtollSign] at hd
    | cons c t =>
      have hsplit : s = s.takeWhile isSpaceC ++ (c :: t) := by
        conv_lhs => rw [← List.takeWhile_append_dropWhile (p := isSpaceC) (l := s)]
        rw [hr1]
      by_cases hcm : c = '-'
      · subst hcm
        rw [hr1, strtollSign_minus] at hd h3 hv
        have ht : t.takeWhile isDigitC = t := by
          have h := List.takeWhile_append_dropWhile (p := isDigitC) (l := t)
          rw [h3, List.append_nil] at h
          exact h
        refine ⟨s.takeWhile isSpaceC, ['-'], t, ?_, ?_, Or.inr (Or.inr rfl), ?_, ?_, ?_, hlo, hhi⟩
        · conv_lhs => rw [hsplit]
          simp
        · exact fun x hx => List.mem_takeWhile_imp hx
        · rw [ht] at hd; exact hd
        · intro x hx; rw [← ht] at hx; exact List.mem_takeWhile_imp hx
        · rw [ht] at hv
          simpa [neg_one_mul] using hv
      · by_cases hcp : c = '+'
        · subst hcp
          rw [hr1, strtollSign_plus] at hd h3 hv
          have ht : t.takeWhile isDigitC = t := by
            have h := List.takeWhile_append_dropWhile (p := isDigitC) (l := t)
            rw [h3, List.append_nil] at h
            exact h
          refine ⟨s.takeWhile isSpaceC, ['+'], t, ?_, ?_, Or.inr (Or.inl rfl), ?_, ?_, ?_, hlo, hhi⟩
          · conv_lhs => rw [hsplit]
            simp
          · exact fun x hx => List.mem_takeWhile_imp hx
          · rw [ht] at hd; exact hd
          · intro x hx; rw [← ht] at hx; exact List.mem_takeWhile_imp hx
          · rw [ht] at hv
            simpa using hv
        · rw [hr1, strtollSign_other hcm hcp] at hd h3 hv
          have ht : (c :: t).takeWhile isDigitC = c :: t := by
            have h := List.takeWhile_append_dropWhile (p := isDigitC) (l := c :: t)
            rw [h3, List.append_nil] at h
            exact h
          refine ⟨s.takeWhile isSpaceC, [], c :: t, ?_, ?_, Or.inl rfl, ?_, ?_, ?_, hlo, hhi⟩
          · conv_lhs => rw [hsplit]
            simp
          · exact fun x hx => List.mem_takeWhile_imp hx
          · simp
          · intro x hx; rw [← ht] at hx; exact List.mem_takeWhile_imp hx
          · rw [ht] at hv
            simpa using hv
  · rintro ⟨ws, sgn, ds, hsplit, hws, hsgn, hne, hdig, hv, hlo, hhi⟩
    have hdtake : ds.takeWhile isDigitC = ds :=
      List.takeWhile_eq_self_iff.mpr (fun x hx => hdig x hx)
    have hddrop : ds.dropWhile isDigitC = [] :=
      List.dropWhile_eq_nil_iff.mpr (fun x hx => hdig x hx)
    have hsne : s ≠ [] := by
      intro he
      have hlen := congrArg List.length hsplit
      rw [he] at hlen
      simp only [List.length_nil, List.length_append] at hlen
      exact hne (List.eq_nil_of_length_eq_zero (by omega))
    have hdrop : s.dropWhile isSpaceC = sgn ++ ds := by
      rw [hsplit, List.append_assoc]
      rw [dropWhile_append_all ws (sgn ++ ds) hws]
      rcases hsgn with h | h | h <;> subst h
      · cases ds with
        | nil => exact absurd rfl hne
        | cons d t =>
          simp only [List.nil_append]
          exact List.dropWhile_cons_of_neg (by
            simp [digit_not_space (hdig d (List.mem_cons_self _ _))])
      · exact List.dropWhile_cons_of_neg (by decide)
      · exact List.dropWhile_cons_of_neg (by decide)
    have hsr : strtollSign (s.dropWhile isSpaceC) =
        ((if sgn = ['-'] then (-1 : Int) else 1), ds) := by
      rw [hdrop]
      rcases hsgn with h | h | h <;> subst h
      · cases ds with
        | nil => exact absurd rfl hne
        | cons d t =>
          have hd1 := digit_ne_minus (hdig d (List.mem_cons_self _ _))
          have hd2 := digit_ne_plus (hdig d (List.mem_cons_self _ _))
          simp only [List.nil_append, if_neg (by simp : ¬([] : List Char) = ['-'])]
          exact strtollSign_other hd1 hd2 t
      · simp only [List.cons_append, List.nil_append,
          if_neg (by simp : ¬(['+'] : List Char) = ['-'])]
        exact strtollSign_plus ds
      · simp only [List.cons_append, List.nil_append, if_pos rfl]
        exact strtollSign_minus ds
    refine ⟨hsne, ?_, ?_, ?_, hlo, hhi⟩
    · rw [hsr]
      simp only
      rw [hdtake]
      exact hne
    · rw [hsr]
      simp only
      exact hddrop
    · rw [hsr]
      simp only
      rw [hdtake]
      rcases hsgn with h | h | h <;> subst h <;> simp_all

/-- Counterexample for C4 as stated: the claim says leading whitespace
is rejected, but `strtoll` skips leading whitespace, so `parse_i64`
accepts the string `" 42"` and returns 42. -/
theorem parse_i64_leading_space_counterexample :
    parse_i64 [' ', '4', '2'] = some 42 := by
  decide

/-- C4 (amended): `parse_i64(s, &out)` succeeds exactly when `s` is
optional leading whitespace, then an optional single `'+'` or `'-'`
sign, then one or more decimal digits and nothing else, with the signed
value inside `[INT64_MIN, INT64_MAX]`; it rejects the empty string, any
other leading garbage, any trailing garbage, and out-of-range values,
and on success writes the represented value to `*out`. -/
theorem parse_i64_correct (s : List Char) (v : Int) :
    parse_i64 s = some v ↔ parse_i64_amended s v :=
  parse_i64_spec_amended s v

/-- Witness for C4: concrete accepted and rejected inputs, via the
amended equivalence. -/
theorem parse_i64_correct_witness :
    parse_i64_amended [' ', '-', '7'] (-7) :=
  (parse_i64_correct [' ', '-', '7'] (-7)).mp (by decide)


/-! ## Theorems: movie builder failure atomicity -/

theorem realloc_str_fail_visible (alloc : Nat → Bool) (b : MovieBuilder) (n : Nat)
    (h : (movie_builder_realloc_str_data alloc b n).1 = false) :
    builder_visible (movie_builder_realloc_str_data alloc b n).2 = builder_visible b := by
  by_cases h1 : b.str_in_use + n > SIZE_MAX
  · simp [movie_builder_realloc_str_data, h1]
  · by_cases h2 : alloc b.allocCtr
    · simp [movie_builder_realloc_str_data, h1, h2] at h
    · simp [movie_builder_realloc_str_data, h1, h2, builder_visible]

theorem create_slice_fail_visible (alloc : Nat → Bool) (b : MovieBuilder) (size : Nat)
    (h : (movie_builder_create_slice alloc b size).1 = none) :
    builder_visible (movie_builder_create_slice alloc b size).2 = builder_visible b := by
  by_cases h1 : size > b.str_capacity - b.str_in_use
  · by_cases h2 : (movie_builder_realloc_str_data alloc b size).1 = true
    · simp [movie_builder_create_slice, h1, h2] at h
    · simp only [movie_builder_create_slice, if_pos h1, Bool.not_eq_true] at h2 ⊢
      rw [if_neg (by simp [h2])]
      exact realloc_str_fail_visible alloc b size h2
  · simp [movie_builder_create_slice, h1] at h

theorem add_string_fail_visible (alloc : Nat → Bool) (b : MovieBuilder) (str : List Char)
    (h : (movie_builder_add_string alloc b str).1 = none) :
    builder_visible (movie_builder_add_string alloc b str).2 = builder_visible b := by
  unfold movie_builder_add_string at h ⊢
  cases hcs : movie_builder_create_slice alloc b (str.length + 1) with
  | mk o b2 =>
    cases o with
    | none =>
      have h1 : (movie_builder_create_slice alloc b (str.length + 1)).1 = none := by rw [hcs]
      have hv := create_slice_fail_visible alloc b (str.length + 1) h1
      rw [hcs] at hv
      exact hv
    | some i =>
      rw [hcs] at h
      exact Option.noConfusion h

theorem realloc_list_fail_visible (alloc : Nat → Bool) (b : MovieBuilder)
    (h : (movie_builder_realloc_movie_list alloc b).1 = false) :
    builder_visible (movie_builder_realloc_movie_list alloc b).2 = builder_visible b := by
  by_cases h1 : b.list_capacity + MOVIE_LIST_CAPACITY_STEP > SIZE_MAX
  · simp [movie_builder_realloc_movie_list, h1]
  · by_cases h2 : alloc b.allocCtr
    · simp [movie_builder_realloc_movie_list, h1, h2] at h
    · simp [movie_builder_realloc_movie_list, h1, h2, builder_visible]

theorem add_to_list_fail_visible (alloc : Nat → Bool) (b : MovieBuilder) (ref : MovieRef)
    (h : (movie_build_add_to_list alloc b ref).1 = false) :
    builder_visible (movie_build_add_to_list alloc b ref).2 = builder_visible b := by
  by_cases h1 : b.list_capacity ≤ b.list_size
  · by_cases h2 : (movie_builder_realloc_movie_list alloc b).1 = true
    · simp [movie_build_add_to_list, h1, h2] at h
    · simp only [movie_build_add_to_list, if_pos h1, Bool.not_eq_true] at h2 ⊢
      rw [if_neg (by simp [h2])]
      exact realloc_list_fail_visible alloc b h2
  · simp [movie_build_add_to_list, h1] at h

/-- C7: every movie-builder mutation that may grow the string arena or
the record list (`set_title`, `set_director`, `add_genre`,
`add_current_movie_to_list`, `add_current_summary_to_list`) either
succeeds returning `true`, or fails (on allocation failure or on the
overflow-checked size arithmetic) returning `false` with no visible
state change: the arena watermark `str_in_use`, the arena contents up to
the watermark, all five has-flags, the current record fields, and the
record list are exactly as before the call. -/
theorem builder_mutations_atomic (alloc : Nat → Bool) (b : MovieBuilder) (s : List Char) :
    ((movie_builder_set_title alloc b s).1 = false →
      builder_visible (movie_builder_set_title alloc b s).2 = builder_visible b) ∧
    ((movie_builder_set_director alloc b s).1 = false →
      builder_visible (movie_builder_set_director alloc b s).2 = builder_visible b) ∧
    ((movie_builder_add_genre alloc b s).1 = false →
      builder_visible (movie_builder_add_genre alloc b s).2 = builder_visible b) ∧
    ((movie_builder_add_current_movie_to_list alloc b).1 = false →
      builder_visible (movie_builder_add_current_movie_to_list alloc b).2 = builder_visible b) ∧
    ((movie_builder_add_current_summary_to_list alloc b).1 = false →
      builder_visible (movie_builder_add_current_summary_to_list alloc b).2 = builder_visible b) := by
  refine ⟨?_, ?_, ?_, ?_, ?_⟩
  · intro h
    unfold movie_builder_set_title at h ⊢
    cases has : movie_builder_add_string alloc b s with
    | mk o b2 =>
      cases o with
      | none =>
        have h1 : (movie_builder_add_string alloc b s).1 = none := by rw [has]
        have hv := add_string_fail_visible alloc b s h1
        rw [has] at hv
        exact hv
      | some i =>
        rw [has] at h
        exact Bool.noConfusion h
  · intro h
    unfold movie_builder_set_director at h ⊢
    cases has : movie_builder_add_string alloc b s with
    | mk o b2 =>
      cases o with
      | none =>
        have h1 : (movie_builder_add_string alloc b s).1 = none := by rw [has]
        have hv := add_string_fail_visible alloc b s h1
        rw [has] at hv
        exact hv
      | some i =>
        rw [has] at h
        exact Bool.noConfusion h
  · intro h
    unfold movie_builder_add_genre at h ⊢
    cases has : movie_builder_add_string alloc b s with
    | mk o b2 =>
      cases o with
      | none =>
        have h1 : (movie_builder_add_string alloc b s).1 = none := by rw [has]
        have hv := add_string_fail_visible alloc b s h1
        rw [has] at hv
        exact hv
      | some i =>
        rw [has] at h
        exact Bool.noConfusion h
  · intro h
    unfold movie_builder_add_current_movie_to_list at h ⊢
    by_cases hr : (movie_build_add_to_list alloc b b.current).1 = true
    · simp [hr] at h
    · rw [if_neg hr] at h ⊢
      exact add_to_list_fail_visible alloc b b.current (Bool.not_eq_true _ ▸ eq_false_of_ne_true hr)
  · intro h
    unfold movie_builder_add_current_summary_to_list at h ⊢
    by_cases hr : (movie_build_add_to_list alloc b
        { movie_id := b.current.movie_id, title_slice := b.current.title_slice,
          director_slice := SIZE_MAX, release_year := INT_MAX,
          genres_slice := SIZE_MAX, genres_count := SIZE_MAX }).1 = true
    · simp [hr] at h
    · rw [if_neg hr] at h ⊢
      exact add_to_list_fail_visible alloc b _ (eq_false_of_ne_true hr)

/-- Witness for C7: with a failing allocator, `set_title` and
`add_current_movie_to_list` on the zero-capacity builder fail and leave
the visible state untouched. -/
theorem builder_mutations_atomic_witness :
    builder_visible (movie_builder_set_title (fun _ => false) demoBuilder
      ('a' :: [])).2 = builder_visible demoBuilder ∧
    builder_visible (movie_builder_add_current_movie_to_list (fun _ => false)
      demoBuilder).2 = builder_visible demoBuilder := by
  constructor
  · exact (builder_mutations_atomic (fun _ => false) demoBuilder ('a' :: [])).1 rfl
  · exact (builder_mutations_atomic (fun _ => false) demoBuilder ('a' :: [])).2.2.2.1 rfl


/-! ## Theorems: parser top level -/

/-- An operation whose tag field says error is a `parseError`. -/
theorem isParseError_shape (op : Operation) (h : op.isParseError = true) :
    ∃ m, op = .parseError m := by
  cases op <;> simp_all [Operation.isParseError]

/-- C5: in the Idle state (outside a mapping), a scalar is emitted
directly as an operation only for the argument-less keys `list_movies`
and `list_summaries` (or their decimal codes `5` and `4`); the
argument-taking operation keys yield a "requires a dictionary"
`ParseError`, and unrecognized keys yield an "unrecognized operation
key" `ParseError`. -/
theorem parser_idle_scalar_spec (alloc : Nat → Bool) (fuel : Nat) (p : ParserState)
    (evs : List YRead) (v : List Char) (hf : 0 < fuel) (hdone : p.done = false)
    (hmap : p.in_mapping = false) :
    (parse_ty v = .LIST_MOVIES ∨ parse_ty v = .LIST_SUMMARIES →
      parser_next_op alloc fuel p (.ev (.scalar v) :: evs) =
        some (.bare (parse_ty v), p, evs)) ∧
    ((parse_ty v = .ADD_MOVIE ∨ parse_ty v = .ADD_GENRE ∨ parse_ty v = .REMOVE_MOVIE ∨
        parse_ty v = .GET_MOVIE ∨ parse_ty v = .SEARCH_BY_GENRE) →
      parser_next_op alloc fuel p (.ev (.scalar v) :: evs) =
        some (.parseError "operation requires a dictionary", p, evs)) ∧
    (parse_ty v = .PARSE_ERROR →
      parser_next_op alloc fuel p (.ev (.scalar v) :: evs) =
        some (.parseError "unrecognized operation key", p, evs)) ∧
    (parse_ty v = .LIST_MOVIES ↔ (v = "list_movies".toList ∨ v = "5".toList)) ∧
    (parse_ty v = .LIST_SUMMARIES ↔ (v = "list_summaries".toList ∨ v = "4".toList)) := by
  cases fuel with
  | zero => omega
  | succ n =>
    refine ⟨?_, ?_, ?_, ?_, ?_⟩
    · intro h
      rcases h with h | h <;>
        simp [parser_next_op, hdone, hmap, h, parse_invalid]
    · intro h
      rcases h with h | h | h | h | h <;>
        simp [parser_next_op, hdone, hmap, h, parse_invalid]
    · intro h
      simp [parser_next_op, hdone, hmap, h, parse_invalid]
    · unfold parse_ty
      constructor
      · intro h
        split_ifs at h with h1 h2 h3 h4 h5 h6 h7 <;>
          first
            | exact h5
            | exact absurd h (by decide)
      · intro h
        rcases h with rfl | rfl <;> decide
    · unfold parse_ty
      constructor
      · intro h
        split_ifs at h with h1 h2 h3 h4 h5 h6 h7 <;>
          first
            | exact h4
            | exact absurd h (by decide)
      · intro h
        rcases h with rfl | rfl <;> decide

/-- Witness for C5: the bare scalar `list_movies` is emitted directly,
and the bare scalar `get_movie` is rejected. -/
theorem parser_idle_scalar_spec_witness :
    parser_next_op (fun _ => true) 1 demoParser [.ev (.scalar "list_movies".toList)] =
      some (.bare (parse_ty "list_movies".toList), demoParser, []) ∧
    parser_next_op (fun _ => true) 1 demoParser [.ev (.scalar "get_movie".toList)] =
      some (.parseError "operation requires a dictionary", demoParser, []) := by
  constructor
  · exact (parser_idle_scalar_spec (fun _ => true) 1 demoParser [] "list_movies".toList
      (by decide) rfl rfl).1 (Or.inl (by decide))
  · exact (parser_idle_scalar_spec (fun _ => true) 1 demoParser [] "get_movie".toList
      (by decide) rfl rfl).2.1 (Or.inr (Or.inr (Or.inr (Or.inl (by decide)))))

/-- C6 (amended): the parser's `done` flag is a latch for the StreamEnd
terminal: once set, every later `parser_next_op` call returns
`ParseDone` with the state unchanged, and processing a StreamEnd event
sets it; but an underlying I/O failure does NOT set the latch: it emits
`ParseError` with the library problem text and leaves the parser state
(including `done = false`) unchanged. -/
theorem parser_done_latch (alloc : Nat → Bool) :
    (∀ fuel p evs, p.done = true →
      parser_next_op alloc fuel p evs = some (.parseDone, p, evs)) ∧
    (∀ fuel (p : ParserState) evs, 0 < fuel → p.done = false →
      parser_next_op alloc fuel p (.ev .streamEnd :: evs) =
        some (.parseDone, { p with done := true }, evs) ∧
      ({ p with done := true } : ParserState).done = true) ∧
    (∀ fuel (p : ParserState) evs prob, 0 < fuel → p.done = false →
      parser_next_op alloc fuel p (.ioErr prob :: evs) =
        some (.parseError prob, p, evs)) := by
  refine ⟨?_, ?_, ?_⟩
  · intro fuel p evs h
    cases p with
    | mk d m b =>
      have hd : d = true := h
      subst hd
      rw [parser_next_op.eq_def]
      simp [parse_done]
  · intro fuel p evs hf h
    cases fuel with
    | zero => omega
    | succ n => exact ⟨by simp [parser_next_op, h, parse_done], rfl⟩
  · intro fuel p evs prob hf h
    cases fuel with
    | zero => omega
    | succ n => simp [parser_next_op, h, parse_fail]

/-- Counterexample for C6 as stated: after the parser processes a fatal
underlying I/O failure, `parser_finished` does not hold (the `done`
latch stays clear) and a subsequent call returns an ordinary operation,
not `ParseDone`. -/
theorem parser_io_failure_counterexample :
    parser_next_op (fun _ => true) 1 demoParser [.ioErr "input error"] =
      some (.parseError "input error", demoParser, []) ∧
    parser_finished demoParser = false ∧
    parser_next_op (fun _ => true) 1 demoParser [.ev (.scalar "list_movies".toList)] =
      some (.bare .LIST_MOVIES, demoParser, []) := by
  refine ⟨rfl, rfl, ?_⟩
  have h := (parser_idle_scalar_spec (fun _ => true) 1 demoParser [] "list_movies".toList
      (by decide) rfl rfl).1 (Or.inl (by decide))
  rw [h, show parse_ty "list_movies".toList = OpTy.LIST_MOVIES from by decide]

/-- Witness for C6: a finished parser keeps returning `ParseDone`, and a
StreamEnd event sets the latch. -/
theorem parser_done_latch_witness :
    parser_next_op (fun _ => true) 3 doneParser [] = some (.parseDone, doneParser, []) ∧
    parser_next_op (fun _ => true) 1 demoParser [.ev .streamEnd] =
      some (.parseDone, { demoParser with done := true }, []) := by
  constructor
  · exact (parser_done_latch (fun _ => true)).1 3 doneParser [] rfl
  · exact ((parser_done_latch (fun _ => true)).2.1 1 demoParser [] (by decide) rfl).1


/-! ## Theorems: operation payload pre-fill (parse_movie_key) -/

theorem parse_consume_loop_builder (result : Operation) (fuel : Nat) :
    ∀ p evs mstk sstk r,
      parse_consume_loop result fuel p evs mstk sstk = some r →
      r.2.1.builder = p.builder := by
  induction fuel with
  | zero =>
    intro p evs mstk sstk r h
    rw [parse_consume_loop.eq_def] at h
    by_cases hd : p.done = true
    · rw [if_pos hd] at h
      cases h
      rfl
    · rw [if_neg hd] at h
      simp at h
  | succ n ih =>
    intro p evs mstk sstk r h
    rw [parse_consume_loop.eq_def] at h
    by_cases hd : p.done = true
    · rw [if_pos hd] at h
      cases h
      rfl
    · rw [if_neg hd] at h
      cases evs with
      | nil => simp at h
      | cons re rest =>
        cases re with
        | ioErr prob =>
          simp only [] at h
          cases h
          rfl
        | ev e =>
          cases e with
          | scalar v => exact ih p rest mstk sstk r h
          | mappingStart => exact ih p rest (mstk + 1) sstk r h
          | mappingEnd =>
            simp only [] at h
            split at h
            · cases h; rfl
            · split at h
              · cases h; rfl
              · exact ih p rest (mstk - 1) sstk r h
          | sequenceStart => exact ih p rest mstk (sstk + 1) r h
          | sequenceEnd =>
            simp only [] at h
            split at h
            · cases h; rfl
            · split at h
              · cases h; rfl
              · exact ih p rest mstk (sstk - 1) r h
          | streamEnd =>
            simp only [] at h
            cases h
            rfl
          | streamStart => simp only [] at h; cases h; rfl
          | documentStart => simp only [] at h; cases h; rfl
          | documentEnd => simp only [] at h; cases h; rfl
          | noEvent => exact ih p rest mstk sstk r h
          | aliasEv => exact ih p rest mstk sstk r h

theorem cStringAt_nil (mem : Nat → Char) (bound off : Nat) (h : mem off = nulChar) :
    cStringAt mem bound off = [] := by
  unfold cStringAt
  cases hb : bound - off with
  | zero => simp
  | succ n =>
    rw [List.range_succ_eq_map]
    simp only [List.map_cons, Nat.add_zero]
    rw [List.takeWhile_cons_of_neg]
    simp [h]

theorem parse_consume_builder (result : Operation) (is_sequence : Bool) (fuel : Nat)
    (p : ParserState) (evs : List YRead) (r : Operation × ParserState × List YRead)
    (h : parse_consume result is_sequence fuel p evs = some r) : r.2.1.builder = p.builder := by
  unfold parse_consume at h
  exact parse_consume_loop_builder result fuel p evs _ _ r h

theorem realloc_str_pres (alloc : Nat → Bool) (b : MovieBuilder) (n : Nat) :
    (movie_builder_realloc_str_data alloc b n).2.has_id = b.has_id ∧
    (movie_builder_realloc_str_data alloc b n).2.current.movie_id = b.current.movie_id := by
  unfold movie_builder_realloc_str_data
  split
  · exact ⟨rfl, rfl⟩
  · split
    · exact ⟨rfl, rfl⟩
    · exact ⟨rfl, rfl⟩

theorem create_slice_pres (alloc : Nat → Bool) (b : MovieBuilder) (size : Nat) :
    (movie_builder_create_slice alloc b size).2.has_id = b.has_id ∧
    (movie_builder_create_slice alloc b size).2.current.movie_id = b.current.movie_id := by
  unfold movie_builder_create_slice
  split
  · have hp := realloc_str_pres alloc b size
    by_cases hr : (movie_builder_realloc_str_data alloc b size).1 = true
    · simp only [hr, if_true]
      exact hp
    · simp only [Bool.not_eq_true] at hr
      simp only [hr, Bool.false_eq_true, if_false]
      exact hp
  · exact ⟨rfl, rfl⟩

theorem add_string_pres (alloc : Nat → Bool) (b : MovieBuilder) (str : List Char) :
    (movie_builder_add_string alloc b str).2.has_id = b.has_id ∧
    (movie_builder_add_string alloc b str).2.current.movie_id = b.current.movie_id := by
  unfold movie_builder_add_string
  cases hcs : movie_builder_create_slice alloc b (str.length + 1) with
  | mk o b2 =>
    have hp := create_slice_pres alloc b (str.length + 1)
    rw [hcs] at hp
    cases o with
    | none => exact hp
    | some i => exact hp

theorem set_title_pres (alloc : Nat → Bool) (b : MovieBuilder) (v : List Char) :
    (movie_builder_set_title alloc b v).2.has_id = b.has_id ∧
    (movie_builder_set_title alloc b v).2.current.movie_id = b.current.movie_id := by
  unfold movie_builder_set_title
  cases has : movie_builder_add_string alloc b v with
  | mk o b2 =>
    have hp := add_string_pres alloc b v
    rw [has] at hp
    cases o with
    | none => exact hp
    | some i => exact hp

theorem set_id_pres_title (b : MovieBuilder) (i : Int) :
    (movie_builder_set_id b i).has_title = b.has_title ∧
    (movie_builder_set_id b i).str_data = b.str_data ∧
    (movie_builder_set_id b i).current.title_slice = b.current.title_slice :=
  ⟨rfl, rfl, rfl⟩

theorem key_prefill_parseError (m : String) : key_prefill_ok (.parseError m) := trivial

theorem parse_movie_done_ok (alloc : Nat → Bool) (b : MovieBuilder) (ty : OpTy) :
    key_prefill_ok (parse_movie_done alloc b ty).1 := by
  unfold parse_movie_done
  cases hm : movie_builder_take_current_movie alloc b with
  | mk o b2 => cases o <;> simp [key_prefill_ok]

theorem parse_movie_exit_ok (alloc : Nat → Bool) (p : ParserState) (le : Operation)
    (ty : OpTy) (msg : String) : key_prefill_ok (parse_movie_exit alloc p le ty msg).1 := by
  unfold parse_movie_exit
  split
  · exact parse_movie_done_ok alloc p.builder ty
  · split
    · next hpe =>
      obtain ⟨m, rfl⟩ := isParseError_shape le hpe
      exact key_prefill_parseError m
    · exact key_prefill_parseError msg

theorem parse_movie_key_done_ok (b : MovieBuilder) (ty : OpTy)
    (h1 : genre_inv ty b) (h2 : id_inv ty b) :
    key_prefill_ok (parse_movie_key_done b ty) := by
  unfold parse_movie_key_done movie_builder_take_current_summary
  cases ty <;> simp only [key_prefill_ok]
  · exact cStringAt_nil _ _ _ (h1 (Or.inr rfl)).2
  · exact cStringAt_nil _ _ _ (h1 (Or.inl rfl)).2
  · exact (h2 rfl).2

theorem parse_movie_key_exit_ok (p : ParserState) (le : Operation) (ty : OpTy) (msg : String)
    (h1 : genre_inv ty p.builder) (h2 : id_inv ty p.builder) :
    key_prefill_ok (parse_movie_key_exit p le ty msg) := by
  unfold parse_movie_key_exit
  split
  · exact parse_movie_key_done_ok p.builder ty h1 h2
  · split
    · next hpe =>
      obtain ⟨m, rfl⟩ := isParseError_shape le hpe
      exact key_prefill_parseError m
    · exact key_prefill_parseError msg


theorem parse_movie_loop_ok (alloc : Nat → Bool) (ty : OpTy) (fuel : Nat) :
    ∀ p evs im key le r,
      parse_movie_loop alloc ty fuel p evs im key le = some r → key_prefill_ok r.1 := by
  induction fuel with
  | zero =>
    intro p evs im key le r h
    rw [parse_movie_loop.eq_def] at h
    by_cases hd : p.done = true
    · rw [if_pos hd] at h
      cases h
      exact parse_movie_exit_ok alloc p le ty _
    · rw [if_neg hd] at h
      simp at h
  | succ n ih =>
    intro p evs im key le r h
    rw [parse_movie_loop.eq_def] at h
    by_cases hd : p.done = true
    · rw [if_pos hd] at h
      cases h
      exact parse_movie_exit_ok alloc p le ty _
    · rw [if_neg hd] at h
      cases evs with
      | nil => simp at h
      | cons re rest =>
        cases re with
        | ioErr prob =>
          simp only [] at h
          split at h
          · cases h
            exact parse_movie_done_ok alloc p.builder ty
          · cases h
            exact key_prefill_parseError prob
        | ev e =>
          cases e with
          | scalar v =>
            cases key with
            | NONE =>
              simp only [] at h
              split at h
              · split at h
                · cases hg : parse_genre_list alloc n p rest with
                  | none =>
                    rw [hg] at h
                    exact Option.noConfusion h
                  | some trip =>
                    obtain ⟨err, p2, rest2⟩ := trip
                    rw [hg] at h
                    exact ih p2 rest2 im .NONE _ r h
                · exact ih p rest im _ le r h
              · exact ih _ rest im .NONE _ r h
            | TITLE_KEY => exact ih _ rest im .NONE _ r h
            | DIRECTOR_KEY => exact ih _ rest im .NONE _ r h
            | YEAR_KEY => exact ih _ rest im .NONE _ r h
            | GENRE_KEY => exact ih p rest im .NONE _ r h
            | ID_KEY => exact ih p rest im .NONE le r h
            | OTHER_KEY => exact ih p rest im .NONE le r h
          | mappingStart =>
            simp only [] at h
            split at h
            · cases hg : parse_consume (parse_invalid "internal mapping invalid") false n p rest with
              | none =>
                rw [hg] at h
                exact Option.noConfusion h
              | some trip =>
                obtain ⟨err, p2, rest2⟩ := trip
                rw [hg] at h
                exact ih p2 rest2 im key err r h
            · exact ih p rest true key le r h
          | mappingEnd =>
            simp only [] at h
            cases h
            exact parse_movie_exit_ok alloc _ le ty _
          | sequenceStart =>
            simp only [] at h
            cases hg : parse_consume (parse_invalid "sequence unsupported in this operation") true
                n p rest with
            | none =>
              rw [hg] at h
              exact Option.noConfusion h
            | some trip =>
              obtain ⟨err, p2, rest2⟩ := trip
              rw [hg] at h
              exact ih p2 rest2 im key err r h
          | sequenceEnd =>
            simp only [] at h
            cases h
            exact parse_movie_exit_ok alloc p le ty _
          | streamEnd =>
            simp only [] at h
            cases h
            exact parse_movie_exit_ok alloc _ le ty _
          | streamStart =>
            simp only [] at h
            cases h
            exact parse_movie_exit_ok alloc p le ty _
          | documentStart =>
            simp only [] at h
            cases h
            exact parse_movie_exit_ok alloc p le ty _
          | documentEnd =>
            simp only [] at h
            cases h
            exact parse_movie_exit_ok alloc p le ty _
          | noEvent => exact ih p rest im key le r h
          | aliasEv => exact ih p rest im key le r h

theorem parse_movie_ok (alloc : Nat → Bool) (fuel : Nat) (p : ParserState) (evs : List YRead)
    (ty : OpTy) (r : Operation × ParserState × List YRead)
    (h : parse_movie alloc fuel p evs ty = some r) : key_prefill_ok r.1 := by
  unfold parse_movie at h
  exact parse_movie_loop_ok alloc ty fuel _ evs false .NONE _ r h


theorem key_id_pres_genre (ty : OpTy) (p : ParserState) (v : List Char) (le : Operation)
    (h : genre_inv ty p.builder) :
    genre_inv ty (parse_movie_key_id p v le).2.builder := by
  unfold parse_movie_key_id
  cases hv : parse_i64 v with
  | none => exact h
  | some i => exact h

theorem key_id_pres_id (ty : OpTy) (p : ParserState) (v : List Char) (le : Operation)
    (hc : p.builder.has_id = false) (h : id_inv ty p.builder) :
    id_inv ty (parse_movie_key_id p v le).2.builder := by
  intro hty
  obtain ⟨hid, -⟩ := h hty
  rw [hc] at hid
  exact Bool.noConfusion hid

theorem key_genre_pres_genre (ty : OpTy) (alloc : Nat → Bool) (p : ParserState)
    (v : List Char) (le : Operation) (hc : p.builder.has_title = false)
    (h : genre_inv ty p.builder) :
    genre_inv ty (parse_movie_key_genre alloc p v le).2.builder := by
  intro hty
  obtain ⟨ht, -⟩ := h hty
  rw [hc] at ht
  exact Bool.noConfusion ht

theorem key_genre_pres_id (ty : OpTy) (alloc : Nat → Bool) (p : ParserState)
    (v : List Char) (le : Operation) (h : id_inv ty p.builder) :
    id_inv ty (parse_movie_key_genre alloc p v le).2.builder := by
  intro hty
  obtain ⟨hid, hmid⟩ := h hty
  unfold parse_movie_key_genre
  have hp := set_title_pres alloc p.builder v
  by_cases hr : (movie_builder_set_title alloc p.builder v).1 = true
  · simp only [hr, if_true]
    exact ⟨hp.1.trans hid, hp.2.trans hmid⟩
  · simp only [Bool.not_eq_true] at hr
    simp only [hr, Bool.false_eq_true, if_false]
    exact ⟨hp.1.trans hid, hp.2.trans hmid⟩

theorem parse_movie_key_loop_ok (alloc : Nat → Bool) (ty : OpTy) (fuel : Nat) :
    ∀ p evs im key le r,
      genre_inv ty p.builder → id_inv ty p.builder →
      parse_movie_key_loop alloc ty fuel p evs im key le = some r → key_prefill_ok r.1 := by
  induction fuel with
  | zero =>
    intro p evs im key le r h1 h2 h
    rw [parse_movie_key_loop.eq_def] at h
    by_cases hd : p.done = true
    · rw [if_pos hd] at h
      cases h
      exact parse_movie_exit_ok alloc p le ty _
    · rw [if_neg hd] at h
      simp at h
  | succ n ih =>
    intro p evs im key le r h1 h2 h
    rw [parse_movie_key_loop.eq_def] at h
    by_cases hd : p.done = true
    · rw [if_pos hd] at h
      cases h
      exact parse_movie_exit_ok alloc p le ty _
    · rw [if_neg hd] at h
      cases evs with
      | nil => simp at h
      | cons re rest =>
        cases re with
        | ioErr prob =>
          simp only [] at h
          split at h
          · cases h
            exact parse_movie_key_done_ok p.builder ty h1 h2
          · cases h
            exact key_prefill_parseError prob
        | ev e =>
          cases e with
          | scalar v =>
            cases key with
            | NONE =>
              simp only [] at h
              split at h
              · exact ih p rest im (parse_key v) le r h1 h2 h
              · split at h
                · next hc1 =>
                  simp only [Bool.and_eq_true, Bool.not_eq_true'] at hc1
                  exact ih _ rest im .NONE _ r (key_id_pres_genre ty p v le h1)
                    (key_id_pres_id ty p v le hc1.1 h2) h
                · split at h
                  · next hc2 =>
                    simp only [Bool.and_eq_true, Bool.not_eq_true'] at hc2
                    exact ih _ rest im .NONE _ r
                      (key_genre_pres_genre ty alloc p v le hc2.2 h1)
                      (key_genre_pres_id ty alloc p v le h2) h
                  · exact ih p rest im .NONE _ r h1 h2 h
            | ID_KEY =>
              simp only [] at h
              by_cases hc : p.builder.has_id = true
              · simp only [hc, Bool.not_true, Bool.false_eq_true, if_false] at h
                exact ih p rest im .NONE le r h1 h2 h
              · simp only [Bool.not_eq_true] at hc
                simp only [hc, Bool.not_false, if_true] at h
                exact ih _ rest im .NONE _ r (key_id_pres_genre ty p v le h1)
                  (key_id_pres_id ty p v le hc h2) h
            | GENRE_KEY =>
              simp only [] at h
              by_cases hc : p.builder.has_title = true
              · simp only [hc, Bool.not_true, Bool.false_eq_true, if_false] at h
                exact ih p rest im .NONE le r h1 h2 h
              · simp only [Bool.not_eq_true] at hc
                simp only [hc, Bool.not_false, if_true] at h
                exact ih _ rest im .NONE _ r (key_genre_pres_genre ty alloc p v le hc h1)
                  (key_genre_pres_id ty alloc p v le h2) h
            | TITLE_KEY => exact ih p rest im .NONE le r h1 h2 h
            | DIRECTOR_KEY => exact ih p rest im .NONE le r h1 h2 h
            | YEAR_KEY => exact ih p rest im .NONE le r h1 h2 h
            | OTHER_KEY => exact ih p rest im .NONE le r h1 h2 h
          | mappingStart =>
            simp only [] at h
            split at h
            · cases hg : parse_consume (parse_invalid "internal mapping invalid") false n p rest with
              | none =>
                rw [hg] at h
                exact Option.noConfusion h
              | some trip =>
                obtain ⟨err, p2, rest2⟩ := trip
                rw [hg] at h
                have hb := parse_consume_builder _ _ _ _ _ _ hg
                exact ih p2 rest2 im key err r (by rw [show p2.builder = p.builder from hb]; exact h1)
                  (by rw [show p2.builder = p.builder from hb]; exact h2) h
            · exact ih p rest true key le r h1 h2 h
          | mappingEnd =>
            simp only [] at h
            cases h
            split
            · exact parse_movie_key_exit_ok _ le ty _ h1 h2
            · exact parse_movie_key_exit_ok _ le ty _ h1 h2
          | sequenceStart =>
            simp only [] at h
            cases hg : parse_consume (parse_invalid "sequence unsupported in this operation") true
                n p rest with
            | none =>
              rw [hg] at h
              exact Option.noConfusion h
            | some trip =>
              obtain ⟨err, p2, rest2⟩ := trip
              rw [hg] at h
              have hb := parse_consume_builder _ _ _ _ _ _ hg
              exact ih p2 rest2 im key err r (by rw [show p2.builder = p.builder from hb]; exact h1)
                (by rw [show p2.builder = p.builder from hb]; exact h2) h
          | sequenceEnd =>
            simp only [] at h
            cases h
            exact parse_movie_key_exit_ok p le ty _ h1 h2
          | streamEnd =>
            simp only [] at h
            cases h
            exact parse_movie_key_exit_ok _ le ty _ h1 h2
          | streamStart =>
            simp only [] at h
            cases h
            exact parse_movie_key_exit_ok p le ty _ h1 h2
          | documentStart =>
            simp only [] at h
            cases h
            exact parse_movie_key_exit_ok p le ty _ h1 h2
          | documentEnd =>
            simp only [] at h
            cases h
            exact parse_movie_key_exit_ok p le ty _ h1 h2
          | noEvent => exact ih p rest im key le r h1 h2 h
          | aliasEv => exact ih p rest im key le r h1 h2 h


/-- The pre-fill `movie_builder_set_title(builder, 0, "")` on a freshly
reset builder with any arena capacity at all cannot allocate, so it
always succeeds, claims slice 0, and stores the sole NUL there. -/
theorem set_title_empty_inv (alloc : Nat → Bool) (b : MovieBuilder)
    (h0 : b.str_in_use = 0) (hcap : 1 ≤ b.str_capacity) :
    (movie_builder_set_title alloc b []).2.has_title = true ∧
    (movie_builder_set_title alloc b []).2.str_data
      (movie_builder_set_title alloc b []).2.current.title_slice = nulChar := by
  unfold movie_builder_set_title movie_builder_add_string movie_builder_create_slice
  have hc : ¬ ([] : List Char).length + 1 > b.str_capacity - b.str_in_use := by
    simp only [List.length_nil, Nat.zero_add, h0, Nat.sub_zero]
    omega
  rw [if_neg hc]
  simp only [h0]
  constructor
  · trivial
  · show writeBytes b.str_data 0 ([] ++ [nulChar]) 0 = nulChar
    simp [writeBytes]

/-- Dispatch-level pre-fill lemma for `parse_movie_key`: with any arena
capacity, a GetMovie/RemoveMovie dispatch (which pre-fills the genre
slot) and a SearchByGenre dispatch (which pre-fills the id slot) can
only produce operations whose payload satisfies the pre-fill property. -/
theorem parse_movie_key_ok (alloc : Nat → Bool) (fuel : Nat) (p : ParserState)
    (evs : List YRead) (ty : OpTy) (nid ng : Bool) (r : Operation × ParserState × List YRead)
    (hcap : 1 ≤ p.builder.str_capacity)
    (hGR : (ty = .GET_MOVIE ∨ ty = .REMOVE_MOVIE) → ng = false)
    (hS : ty = .SEARCH_BY_GENRE → nid = false)
    (h : parse_movie_key alloc fuel p evs ty nid ng = some r) :
    key_prefill_ok r.1 := by
  unfold parse_movie_key at h
  refine parse_movie_key_loop_ok alloc ty fuel _ evs false .NONE _ r ?_ ?_ h
  · intro hty
    have hng : ng = false := hGR hty
    subst hng
    cases nid with
    | false => exact set_title_empty_inv alloc _ rfl hcap
    | true => exact set_title_empty_inv alloc _ rfl hcap
  · intro hty
    have hnid : nid = false := hS hty
    subst hnid
    cases ng with
    | true => exact ⟨rfl, rfl⟩
    | false =>
      have hp := set_title_pres alloc
        (movie_builder_set_id (movie_builder_reset p.builder) 0) []
      exact ⟨hp.1, hp.2⟩

/-- Auxiliary induction for the pre-fill property over `parser_next_op`. -/
theorem parser_next_op_key_prefill_aux (alloc : Nat → Bool) (fuel : Nat) :
    ∀ p evs r, 1 ≤ p.builder.str_capacity →
      parser_next_op alloc fuel p evs = some r → key_prefill_ok r.1 := by
  induction fuel with
  | zero =>
    intro p evs r hcap h
    rw [parser_next_op.eq_def] at h
    by_cases hd : p.done = true
    · rw [if_pos hd] at h
      cases h
      trivial
    · rw [if_neg hd] at h
      simp at h
  | succ n ih =>
    intro p evs r hcap h
    rw [parser_next_op.eq_def] at h
    by_cases hd : p.done = true
    · rw [if_pos hd] at h
      cases h
      trivial
    · rw [if_neg hd] at h
      cases evs with
      | nil => simp at h
      | cons re rest =>
        cases re with
        | ioErr prob =>
          simp only [] at h
          cases h
          exact key_prefill_parseError prob
        | ev e =>
          cases e with
          | scalar v =>
            simp only [] at h
            by_cases him : p.in_mapping = true
            · rw [if_pos him] at h
              cases hty : parse_ty v <;> rw [hty] at h
              · exact parse_movie_ok alloc n p rest _ r h
              · exact parse_movie_key_ok alloc n p rest _ true true r hcap
                  (by rintro (h1 | h1) <;> exact absurd h1 (by decide))
                  (by intro h1; exact absurd h1 (by decide)) h
              · exact parse_movie_key_ok alloc n p rest _ true false r hcap
                  (fun _ => rfl) (by intro h1; exact absurd h1 (by decide)) h
              · exact parse_movie_key_ok alloc n p rest _ false false r hcap
                  (fun _ => rfl) (fun _ => rfl) h
              · exact parse_movie_key_ok alloc n p rest _ false false r hcap
                  (fun _ => rfl) (fun _ => rfl) h
              · exact parse_movie_key_ok alloc n p rest _ true false r hcap
                  (fun _ => rfl) (by intro h1; exact absurd h1 (by decide)) h
              · exact parse_movie_key_ok alloc n p rest _ false true r hcap
                  (by rintro (h1 | h1) <;> exact absurd h1 (by decide))
                  (fun _ => rfl) h
              · cases h
                exact key_prefill_parseError _
              · cases h
                exact key_prefill_parseError _
            · rw [if_neg him] at h
              cases hty : parse_ty v <;> rw [hty] at h <;> cases h <;> trivial
          | mappingStart =>
            simp only [] at h
            split at h
            · cases h
              exact key_prefill_parseError _
            · exact ih { p with in_mapping := true } rest r hcap h
          | mappingEnd =>
            simp only [] at h
            split at h
            · cases h
              exact key_prefill_parseError _
            · exact ih { p with in_mapping := false } rest r hcap h
          | streamEnd =>
            simp only [] at h
            cases h
            trivial
          | streamStart => exact ih p rest r hcap h
          | documentStart => exact ih p rest r hcap h
          | documentEnd => exact ih p rest r hcap h
          | sequenceStart => exact ih p rest r hcap h
          | sequenceEnd => exact ih p rest r hcap h
          | noEvent => exact ih p rest r hcap h
          | aliasEv => exact ih p rest r hcap h

/-- C10: `parse_movie_key` pre-fills the field that an operation does
not request, so every operation produced by `parser_next_op` tagged
GetMovie or RemoveMovie carries `genre` equal to the empty string (never
a null pointer), and every operation tagged SearchByGenre carries
`movie_id` equal to zero (under the builder invariant that the arena has
any capacity at all, which `movie_builder_create` establishes with its
initial 4 KiB page). -/
theorem parser_next_op_key_prefill (alloc : Nat → Bool) (fuel : Nat) (p : ParserState)
    (evs : List YRead) (hcap : 1 ≤ p.builder.str_capacity) :
    key_prefill_ok_opt (parser_next_op alloc fuel p evs) := by
  cases h : parser_next_op alloc fuel p evs with
  | none => trivial
  | some r => exact parser_next_op_key_prefill_aux alloc fuel p evs r hcap h

/-- Witness for C10: a concrete parsed `get_movie: 7` request satisfies
the pre-fill property. -/
theorem parser_next_op_key_prefill_witness :
    key_prefill_ok_opt (parser_next_op (fun _ => true) 5 demoParserPage demoKeyEvents) :=
  parser_next_op_key_prefill (fun _ => true) 5 demoParserPage demoKeyEvents (by decide)


/-! ## Theorems: error-message ownership (`db_free_errmsg`) -/

/-- C8: `db_free_errmsg` frees a message if and only if it is not one of
the fixed static sentinels; sentinel membership is decided by pointer
identity (a heap string whose contents equal a sentinel's contents is
still freed); on a sentinel the call is a no-op; and anything
`errmsg_dup` hands out that is a sentinel is never freed. -/
theorem db_free_errmsg_spec :
    (∀ m : ErrMsgPtr, db_free_errmsg m = true ↔ is_predefined_errmsg m = false) ∧
    (∀ m : ErrMsgPtr, is_predefined_errmsg m = true ↔
      (m = .unknownError ∨ m = .outOfMemoryError ∨ m = .atexitError)) ∧
    (∀ (heap : Nat → String) (i : Nat),
      errmsg_content heap (.heap i) = errmsg_content heap .outOfMemoryError →
      db_free_errmsg (.heap i) = true) ∧
    (∀ src allocOk freshId, is_predefined_errmsg (errmsg_dup src allocOk freshId) = true →
      db_free_errmsg (errmsg_dup src allocOk freshId) = false) := by
  refine ⟨?_, ?_, ?_, ?_⟩
  · intro m
    cases m <;> simp [db_free_errmsg, is_predefined_errmsg]
  · intro m
    cases m <;> simp [is_predefined_errmsg]
  · intro heap i _
    simp [db_free_errmsg, is_predefined_errmsg]
  · intro src allocOk freshId h
    simp [db_free_errmsg, h]

/-- Witness for C8: a heap message whose text reads "out of memory" is
freed, while the out-of-memory sentinel itself is not. -/
theorem db_free_errmsg_spec_witness :
    db_free_errmsg (.heap 7) = true ∧ db_free_errmsg .outOfMemoryError = false := by
  constructor
  · exact db_free_errmsg_spec.2.2.1 (fun _ => "out of memory") 7 rfl
  · by_cases hb : db_free_errmsg .outOfMemoryError = true
    · have hp := (db_free_errmsg_spec.1 .outOfMemoryError).mp hb
      exact absurd hp (by decide)
    · simpa using hb

end MovieServer
